import Mathlib

set_option maxRecDepth 1000000
set_option maxHeartbeats 4000000

/-!
Verification of the pro forma calculation engine of the cost-calculator
repository (src/calculations.py) against its natural-language specification.

The engine is embedded shallowly: the pandas DataFrame becomes a `Table`
(an explicit row/column index plus a cell function into `Option ℚ`, where
`none` plays the role of a missing value / NaN), Python floats become exact
rationals, and the places where the Python code raises an exception
(float division by zero, label-based indexing with missing labels) become
an `Except PyErr` result.
-/

namespace CostCalculator

/-- Row labels of the pro forma table: an integer year, or the synthetic
terminal row labeled NPV. -/
inductive Row where
  | yr (y : ℤ)
  | npv
deriving DecidableEq

abbrev Col := String

/-- The pandas DataFrame of `calculate_pro_forma`, reduced to what the code
uses: an ordered row index, an ordered column index, and a cell lookup.
A cell that was never assigned is `none` (NaN). -/
structure Table where
  rowIndex : List Row
  colIndex : List Col
  cells : Row → Col → Option ℚ

/-- `df.loc[r, c] = v`: scalar assignment with enlargement, as in pandas.
A missing row or column label is appended to the corresponding index. -/
def Table.set (t : Table) (r : Row) (c : Col) (v : Option ℚ) : Table :=
  { rowIndex := if r ∈ t.rowIndex then t.rowIndex else t.rowIndex ++ [r]
    colIndex := if c ∈ t.colIndex then t.colIndex else t.colIndex ++ [c]
    cells := fun r' c' =>
      if r' = r then (if c' = c then v else t.cells r' c') else t.cells r' c' }

/-- `df.loc[rows, c] = series`: assignment of one column at a list of row
labels; the right-hand side is a function of the row, precomputed from the
table the caller read it from (as pandas evaluates the RHS first). -/
def Table.setRows (t : Table) (rs : List Row) (c : Col) (f : Row → Option ℚ) : Table :=
  rs.foldl (fun acc r => acc.set r c (f r)) t

/-- The rows selected by `proforma.index != 'NPV'`. -/
def Table.datedRows (t : Table) : List Row :=
  t.rowIndex.filter (fun r => r ≠ Row.npv)

/-- The rows selected by the boolean mask `proforma.index > 0`. -/
def Table.operatingRows (t : Table) : List Row :=
  t.rowIndex.filter (fun r => match r with | Row.yr y => 0 < y | Row.npv => false)

/-- The integer year of a dated row (the NPV row never reaches this). -/
def rowYear : Row → ℤ
  | Row.yr y => y
  | Row.npv => 0

/-- NaN-propagating addition: pandas arithmetic on two series. -/
def oadd (a b : Option ℚ) : Option ℚ :=
  match a, b with
  | some x, some y => some (x + y)
  | _, _ => none

/-- NaN-propagating subtraction. -/
def osub (a b : Option ℚ) : Option ℚ :=
  match a, b with
  | some x, some y => some (x - y)
  | _, _ => none

/-- NaN-propagating multiplication. -/
def omul (a b : Option ℚ) : Option ℚ :=
  match a, b with
  | some x, some y => some (x * y)
  | _, _ => none

/-- The exceptions the Python code can actually raise on its numeric paths,
plus `invalidScenario`. Modelled from the spec: the spec's error-handling
section asks for a domain error named `InvalidScenario`; no such error
exists anywhere in the source, so the constructor is never produced by the
embedding and exists only so that statements about it can be written. -/
inductive PyErr where
  | zeroDivisionError
  | keyError
  | invalidScenario
deriving DecidableEq

/-- One row of the pre-filtered powerflow `simulation_data` frame: the
Operating Year key and the five energy columns the engine copies. -/
structure SimRow where
  opYear : ℤ
  solarNet : ℚ
  bessNet : ℚ
  genOut : ℚ
  fuelIn : ℚ
  loadServed : ℚ
deriving DecidableEq

/-- `_POWERFLOW_COLUMNS_TO_ASSIGN` from src/calculations.py. -/
def POWERFLOW_COLUMNS_TO_ASSIGN : List Col :=
  [ "Solar Output - Net (MWh)"
  , "BESS Net Output (MWh)"
  , "Generator Output (MWh)"
  , "Generator Fuel Input (MMBtu)"
  , "Load Served (MWh)" ]

/-- `_EXCLUDE_FROM_NPV` from src/calculations.py. -/
def EXCLUDE_FROM_NPV : List Col :=
  [ "Fuel Unit Cost", "Solar Fixed O&M Rate", "Battery Fixed O&M Rate"
  , "Generator Fixed O&M Rate", "Generator Variable O&M Rate", "BOS Fixed O&M Rate"
  , "Soft O&M Rate", "LCOE", "Debt Outstanding, Yr Start", "Depreciation Schedule" ]

/-- `_CALCULATE_TOTALS` from src/calculations.py. -/
def CALCULATE_TOTALS : List Col :=
  [ "Solar Output - Net (MWh)", "BESS Net Output (MWh)", "Generator Output (MWh)"
  , "Generator Fuel Input (MMBtu)", "Load Served (MWh)" ]

/-- `year_data[column]` for the five powerflow columns. -/
def simValue (year_data : SimRow) : Col → Option ℚ
  | "Solar Output - Net (MWh)" => some year_data.solarNet
  | "BESS Net Output (MWh)" => some year_data.bessNet
  | "Generator Output (MWh)" => some year_data.genOut
  | "Generator Fuel Input (MMBtu)" => some year_data.fuelIn
  | "Load Served (MWh)" => some year_data.loadServed
  | _ => none

/-- `pd.Series.unique()`: the distinct values in first-occurrence order
(auxiliary, with the list of already-seen values as accumulator). -/
def uniqueFirstAux : List ℤ → List ℤ → List ℤ
  | _, [] => []
  | seen, y :: ys =>
      if y ∈ seen then uniqueFirstAux seen ys
      else y :: uniqueFirstAux (y :: seen) ys

/-- `simulation_data['Operating Year'].unique()`. -/
def uniqueFirst (l : List ℤ) : List ℤ := uniqueFirstAux [] l

/-- The scalar arguments of `calculate_pro_forma`, with the source's
parameter names. `depreciation_schedule` is the list of percentages the
caller passes (inputs.py passes a plain Python list). -/
structure Params where
  datacenter_load_mw : ℚ
  solar_pv_capacity_mw : ℚ
  bess_max_power_mw : ℚ
  generator_capacity_mw : ℚ
  solar_capex : ℚ
  bess_capex : ℚ
  generator_capex : ℚ
  system_integration_capex : ℚ
  soft_costs_capex : ℚ
  generator_om_fixed_dollar_per_kw : ℚ
  generator_om_variable_dollar_per_kwh : ℚ
  fuel_price_dollar_per_mmbtu : ℚ
  fuel_escalator_pct : ℚ
  solar_om_fixed_dollar_per_kw : ℚ
  bess_om_fixed_dollar_per_kw : ℚ
  bos_om_fixed_dollar_per_kw_load : ℚ
  soft_om_pct : ℚ
  om_escalator_pct : ℚ
  lcoe_dollar_per_mwh : ℚ
  depreciation_schedule : List ℚ
  investment_tax_credit_pct : ℚ
  cost_of_debt_pct : ℚ
  leverage_pct : ℚ
  debt_term_years : ℕ
  cost_of_equity_pct : ℚ
  combined_tax_rate_pct : ℚ
  construction_time_years : ℕ

/-- `total_hard_capex = solar_capex + bess_capex + generator_capex +
system_integration_capex` (src/calculations.py line 190). -/
def total_hard_capex (p : Params) : ℚ :=
  p.solar_capex + p.bess_capex + p.generator_capex + p.system_integration_capex

/-- `total_capex = total_hard_capex + soft_costs_capex` (line 191). -/
def total_capex (p : Params) : ℚ :=
  total_hard_capex p + p.soft_costs_capex

/-- `total_debt = total_capex * (leverage_pct / 100)` (line 192). -/
def total_debt (p : Params) : ℚ :=
  total_capex p * (p.leverage_pct / 100)

/-- `interest_rate = cost_of_debt_pct / 100` (line 193). -/
def interest_rate (p : Params) : ℚ :=
  p.cost_of_debt_pct / 100

/-- The level-payment amortization formula
`PMT = PV * r * (1 + r)^n / ((1 + r)^n - 1)` (line 197). -/
def amort_payment (principal r : ℚ) (n : ℕ) : ℚ :=
  principal * r * (1 + r) ^ n / ((1 + r) ^ n - 1)

/-- `fixed_debt_payment` (line 197), the amortization formula applied to the
total debt at the debt interest rate over the debt term. -/
def fixed_debt_payment (p : Params) : ℚ :=
  amort_payment (total_debt p) (interest_rate p) p.debt_term_years

/-- `renewable_proportion_of_hard_capex = (solar_capex + bess_capex) /
total_hard_capex` (line 201). -/
def renewable_proportion_of_hard_capex (p : Params) : ℚ :=
  (p.solar_capex + p.bess_capex) / total_hard_capex p

/-- `tax_credit_amount` (line 202). -/
def tax_credit_amount (p : Params) : ℚ :=
  total_capex p * renewable_proportion_of_hard_capex p * (p.investment_tax_credit_pct / 100)

/-- `amount_that_is_depreciable = total_capex - tax_credit_amount / 2` (line 204). -/
def amount_that_is_depreciable (p : Params) : ℚ :=
  total_capex p - tax_credit_amount p / 2

/-- The escalated unit rate `-1.0 * base * (1 + escalator_pct/100)^k` written
into the rate columns for the operating year with zero-indexed exponent `k`
(lines 222-234). -/
def escalated_rate (base escalator_pct : ℚ) (k : ℕ) : ℚ :=
  -1 * base * (1 + escalator_pct / 100) ^ k

/-- `years = list(range(-1, 21))` (line 178): the hard-coded year index of
the empty proforma frame, independent of the construction time. -/
def init_table : Table :=
  { rowIndex := (List.range 22).map (fun (k : ℕ) => Row.yr ((k : ℤ) - 1))
    colIndex := []
    cells := fun _ _ => none }

/-- `range(-construction_time_years + 1, 1)` (line 211). -/
def construction_years (n : ℕ) : List ℤ :=
  (List.range n).map (fun (k : ℕ) => (k : ℤ) + 1 - (n : ℤ))

/-- `[y for y in years if y > 0]` (line 279): the operating years 1..20 of
the hard-coded index, over which the debt/tax loop runs. -/
def loop_years : List ℤ :=
  (List.range 20).map (fun (k : ℕ) => (k : ℤ) + 1)

/-- Lines 182-187: for each distinct Operating Year (first-occurrence
order), copy the year and the five powerflow columns of the first
simulation row carrying that year into the frame. -/
def sim_assign (simulation_data : List SimRow) (t : Table) : Table :=
  (uniqueFirst (simulation_data.map SimRow.opYear)).foldl (fun acc year =>
    match simulation_data.find? (fun row => row.opYear == year) with
    | some year_data =>
        POWERFLOW_COLUMNS_TO_ASSIGN.foldl
          (fun acc2 column => acc2.set (Row.yr year) column (simValue year_data column))
          (acc.set (Row.yr year) ("Operating Year") (some (year : ℚ)))
    | none => acc) t

/-- Lines 218-276: the vectorized operating-period assignments (unit rates,
O&M costs, fuel, revenue, EBITDA) over the rows with index `> 0`. -/
def operating_stage (p : Params) (t : Table) : Table :=
  let ops := t.operatingRows
  let t := t.setRows ops ("Fuel Unit Cost") (fun r =>
    some (escalated_rate p.fuel_price_dollar_per_mmbtu p.fuel_escalator_pct (rowYear r - 1).toNat))
  let t := t.setRows ops ("Solar Fixed O&M Rate") (fun r =>
    some (escalated_rate p.solar_om_fixed_dollar_per_kw p.om_escalator_pct (rowYear r - 1).toNat))
  let t := t.setRows ops ("Battery Fixed O&M Rate") (fun r =>
    some (escalated_rate p.bess_om_fixed_dollar_per_kw p.om_escalator_pct (rowYear r - 1).toNat))
  let t := t.setRows ops ("Generator Fixed O&M Rate") (fun r =>
    some (escalated_rate p.generator_om_fixed_dollar_per_kw p.om_escalator_pct (rowYear r - 1).toNat))
  let t := t.setRows ops ("Generator Variable O&M Rate") (fun r =>
    some (escalated_rate p.generator_om_variable_dollar_per_kwh p.om_escalator_pct (rowYear r - 1).toNat))
  let t := t.setRows ops ("BOS Fixed O&M Rate") (fun r =>
    some (escalated_rate p.bos_om_fixed_dollar_per_kw_load p.om_escalator_pct (rowYear r - 1).toNat))
  let t := t.setRows ops ("Soft O&M Rate") (fun r =>
    some (escalated_rate p.soft_om_pct p.om_escalator_pct (rowYear r - 1).toNat))
  let t := t.setRows ops ("Fixed O&M Cost") (fun r =>
    oadd
      ((oadd (oadd (oadd
        (omul (t.cells r ("Solar Fixed O&M Rate")) (some (p.solar_pv_capacity_mw * 1000)))
        (omul (t.cells r ("Battery Fixed O&M Rate")) (some (p.bess_max_power_mw * 1000))))
        (omul (t.cells r ("Generator Fixed O&M Rate")) (some (p.generator_capacity_mw * 1000))))
        (omul (t.cells r ("BOS Fixed O&M Rate")) (some (p.datacenter_load_mw * 1000)))).map
          (fun x => x / 1000000))
      ((t.cells r ("Soft O&M Rate")).map (fun x => x / 100 * total_hard_capex p)))
  let t := t.setRows ops ("Fuel Cost") (fun r =>
    (omul (t.cells r ("Fuel Unit Cost")) (t.cells r ("Generator Fuel Input (MMBtu)"))).map
      (fun x => x / 1000000))
  let t := t.setRows ops ("Variable O&M Cost") (fun r =>
    (omul (t.cells r ("Generator Variable O&M Rate")) (t.cells r ("Generator Output (MWh)"))).map
      (fun x => x * 1000 / 1000000))
  let t := t.setRows ops ("Total Operating Costs") (fun r =>
    oadd (oadd (t.cells r ("Fuel Cost")) (t.cells r ("Fixed O&M Cost"))) (t.cells r ("Variable O&M Cost")))
  let t := t.setRows ops ("LCOE") (fun _ => some p.lcoe_dollar_per_mwh)
  let t := t.setRows ops ("Revenue") (fun r =>
    (t.cells r ("Load Served (MWh)")).map (fun x => p.lcoe_dollar_per_mwh * x / 1000000))
  t.setRows ops ("EBITDA") (fun r =>
    oadd (t.cells r ("Revenue")) (t.cells r ("Total Operating Costs")))

/-- Lines 279-300: one iteration of the sequential debt/tax/capital loop for
an operating year. -/
def debt_tax_step (p : Params) (t : Table) (year : ℤ) : Table :=
  let t := t.set (Row.yr year) ("Interest Expense")
    ((t.cells (Row.yr year) ("Debt Outstanding, Yr Start")).map (fun b => -1 * b * interest_rate p))
  let t := t.set (Row.yr year) ("Debt Service") (some (-1 * fixed_debt_payment p))
  let t := t.set (Row.yr year) ("Principal Payment")
    (osub (t.cells (Row.yr year) ("Debt Service")) (t.cells (Row.yr year) ("Interest Expense")))
  let t := if year < (p.debt_term_years : ℤ) then
      t.set (Row.yr (year + 1)) ("Debt Outstanding, Yr Start")
        (oadd (t.cells (Row.yr year) ("Debt Outstanding, Yr Start"))
          (t.cells (Row.yr year) ("Principal Payment")))
    else t
  let t := t.set (Row.yr year) ("Depreciation Schedule")
    (some (if year ≤ (p.depreciation_schedule.length : ℤ)
      then p.depreciation_schedule.getD (year - 1).toNat 0 else 0))
  let t := t.set (Row.yr year) ("Depreciation (MACRS)")
    ((t.cells (Row.yr year) ("Depreciation Schedule")).map
      (fun d => -1 * (d / 100) * amount_that_is_depreciable p))
  let t := t.set (Row.yr year) ("Taxable Income")
    (oadd (oadd (t.cells (Row.yr year) ("EBITDA")) (t.cells (Row.yr year) ("Depreciation (MACRS)")))
      (t.cells (Row.yr year) ("Interest Expense")))
  t.set (Row.yr year) ("Interest Expense (Tax)") (t.cells (Row.yr year) ("Interest Expense"))

/-- Lines 279-300: the loop over the operating years, in increasing order. -/
def debt_tax_loop (p : Params) (t : Table) : Table :=
  loop_years.foldl (debt_tax_step p) t

/-- Lines 302-311: the whole-column tax and after-tax-cash-flow
assignments. -/
def tax_and_equity_columns (p : Params) (t : Table) : Table :=
  let t := t.setRows t.rowIndex ("Tax Benefit (Liability)") (fun r =>
    (t.cells r ("Taxable Income")).map (fun ti =>
      -1 * (ti * (p.combined_tax_rate_pct / 100)) + ((t.cells r ("Federal ITC")).getD 0)))
  t.setRows t.rowIndex ("After-Tax Net Equity Cash Flow") (fun r =>
    some (((t.cells r ("EBITDA")).getD 0) + ((t.cells r ("Debt Service")).getD 0) +
      ((t.cells r ("Tax Benefit (Liability)")).getD 0) + ((t.cells r ("Equity Capex")).getD 0)))

/-- `calculate_npv` (lines 100-113): each dated entry `(t, v)` contributes
`v / (1 + rate/100)^(t + construction_time_years)`; missing values were
already replaced by zero by the caller. -/
def calculate_npv (values : List (ℤ × ℚ)) (discount_rate : ℚ)
    (construction_time_years : ℕ) : ℚ :=
  (values.map (fun yv =>
    yv.2 / (1 + discount_rate / 100) ^ (yv.1 + (construction_time_years : ℤ)))).sum

/-- The `(year, value.fillna(0))` pairs of one column over the dated rows
(`proforma.index != 'NPV'`), in index order. -/
def dated_values (t : Table) (c : Col) : List (ℤ × ℚ) :=
  t.rowIndex.filterMap (fun r => match r with
    | Row.yr y => some (y, (t.cells (Row.yr y) c).getD 0)
    | Row.npv => none)

/-- `proforma.loc[proforma.index != 'NPV', col].sum()`: the NaN-skipping
column sum over the dated rows. -/
def column_total (t : Table) (c : Col) : ℚ :=
  ((t.datedRows).map (fun r => (t.cells r c).getD 0)).sum

/-- Lines 313-324: the body of the NPV-row loop for one column. -/
def npv_loop_step (p : Params) (t : Table) (col : Col) : Table :=
  if col ∈ CALCULATE_TOTALS then
    t.set Row.npv col (some (column_total t col))
  else if col ∈ EXCLUDE_FROM_NPV then
    t.set Row.npv col none
  else if col ≠ ("Operating Year") then
    t.set Row.npv col
      (some (calculate_npv (dated_values t col) p.cost_of_equity_pct p.construction_time_years))
  else t

/-- Lines 313-324: `for col in proforma.columns`. -/
def npv_loop (p : Params) (t : Table) : Table :=
  t.colIndex.foldl (npv_loop_step p) t

/-- Everything `calculate_pro_forma` does before the NPV-row loop: scaffold,
powerflow copy, debt/ITC initialization, construction spreading, operating
period, debt/tax loop and the whole-column tax assignments. -/
def build_body (simulation_data : List SimRow) (p : Params) : Table :=
  let t := sim_assign simulation_data init_table
  let t := t.set (Row.yr 1) ("Debt Outstanding, Yr Start") (some (total_debt p))
  let t := t.set (Row.yr 1) ("Federal ITC") (some (tax_credit_amount p))
  let capex_per_year := total_capex p / (p.construction_time_years : ℚ)
  let cy := (construction_years p.construction_time_years).map Row.yr
  let t := t.setRows cy ("Capital Expenditure") (fun _ => some (-1 * capex_per_year))
  let t := t.setRows cy ("Debt Contribution") (fun _ => some (capex_per_year * (p.leverage_pct / 100)))
  let t := t.setRows cy ("Equity Capex") (fun _ => some (-1 * capex_per_year * (1 - p.leverage_pct / 100)))
  let t := operating_stage p t
  let t := debt_tax_loop p t
  tax_and_equity_columns p t

/-- The full table produced by a successful run, before the final
`round(2)`. -/
def build_table (simulation_data : List SimRow) (p : Params) : Table :=
  npv_loop p (build_body simulation_data p)

/-- `calculate_pro_forma` with the Python exception behavior made explicit,
before the final `round(2)`. In source order, the code raises
`ZeroDivisionError` at line 197 when `(1+r)^n - 1 == 0` (float division by
zero), `ZeroDivisionError` at line 201 when the total hard CAPEX is zero,
`ZeroDivisionError` at line 212 when `construction_time_years == 0`,
`KeyError` at line 214 when some construction-year label is missing from
the row index as it stands at that point (pandas list-label assignment with
a missing label raises; the index is the hard-coded -1..20 plus any rows
the powerflow copy of lines 183-187, which runs first, already created by
scalar-label enlargement for Operating Years outside -1..20), and
`KeyError` at line 248 when `simulation_data` is empty (the powerflow
columns were then never created, so reading them raises). -/
def calculate_pro_forma_raw (simulation_data : List SimRow) (p : Params) :
    Except PyErr Table :=
  if (1 + interest_rate p) ^ p.debt_term_years - 1 = 0 then Except.error PyErr.zeroDivisionError
  else if total_hard_capex p = 0 then Except.error PyErr.zeroDivisionError
  else if p.construction_time_years = 0 then Except.error PyErr.zeroDivisionError
  else if ∃ y ∈ construction_years p.construction_time_years,
      Row.yr y ∉ (sim_assign simulation_data init_table).rowIndex then
    Except.error PyErr.keyError
  else if simulation_data.isEmpty then Except.error PyErr.keyError
  else Except.ok (build_table simulation_data p)

/-- Rounding of one cell to two decimal places, as in the final
`proforma.round(2)` (up to the tie-breaking convention of `round`). -/
def round2 (q : ℚ) : ℚ := ((round (q * 100) : ℤ) : ℚ) / 100

/-- `proforma.round(2)` applied cell-wise. -/
def Table.round2 (t : Table) : Table :=
  { t with cells := fun r c => (t.cells r c).map CostCalculator.round2 }

/-- `calculate_pro_forma` (lines 115-326), result rounded to 2 decimals. -/
def calculate_pro_forma (simulation_data : List SimRow) (p : Params) :
    Except PyErr Table :=
  (calculate_pro_forma_raw simulation_data p).map Table.round2

/-- The arguments of `calculate_capex` (lines 31-98), with the source's
input-dictionary key names. -/
structure CapexInputs where
  solar_pv_capacity_mw : ℚ
  bess_max_power_mw : ℚ
  generator_capacity_mw : ℚ
  datacenter_load_mw : ℚ
  pv_modules : ℚ
  pv_inverters : ℚ
  pv_racking : ℚ
  pv_balance_system : ℚ
  pv_labor : ℚ
  bess_units : ℚ
  bess_balance_of_system : ℚ
  bess_labor : ℚ
  gensets : ℚ
  gen_balance_of_system : ℚ
  gen_labor : ℚ
  si_microgrid : ℚ
  si_controls : ℚ
  si_labor : ℚ
  soft_costs_general_conditions : ℚ
  soft_costs_epc_overhead : ℚ
  soft_costs_design_engineering : ℚ
  soft_costs_permitting : ℚ
  soft_costs_startup : ℚ
  soft_costs_insurance : ℚ
  soft_costs_taxes : ℚ

/-- `_BESS_HRS_STORAGE = 4` (line 6). -/
def BESS_HRS_STORAGE : ℚ := 4

/-- Solar CAPEX in raw dollars (lines 42-48). -/
def solar_capex_raw (i : CapexInputs) : ℚ :=
  i.solar_pv_capacity_mw * 1000000 *
    (i.pv_modules + i.pv_inverters + i.pv_racking + i.pv_balance_system + i.pv_labor)

/-- BESS CAPEX in raw dollars (lines 50-56). -/
def bess_capex_raw (i : CapexInputs) : ℚ :=
  (i.bess_max_power_mw * BESS_HRS_STORAGE) * 1000 *
    (i.bess_units + i.bess_balance_of_system + i.bess_labor)

/-- Generator CAPEX in raw dollars (lines 58-63). -/
def generator_capex_raw (i : CapexInputs) : ℚ :=
  i.generator_capacity_mw * 1000 * (i.gensets + i.gen_balance_of_system + i.gen_labor)

/-- System-integration CAPEX in raw dollars (lines 65-70). -/
def system_integration_capex_raw (i : CapexInputs) : ℚ :=
  i.datacenter_load_mw * 1000 * (i.si_microgrid + i.si_controls + i.si_labor)

/-- `total_hard_costs` in raw dollars (lines 72-78). -/
def total_hard_costs (i : CapexInputs) : ℚ :=
  solar_capex_raw i + bess_capex_raw i + generator_capex_raw i + system_integration_capex_raw i

/-- The sum of the seven soft-cost percentages (lines 81-89). -/
def soft_cost_pct_sum (i : CapexInputs) : ℚ :=
  i.soft_costs_general_conditions + i.soft_costs_epc_overhead + i.soft_costs_design_engineering +
    i.soft_costs_permitting + i.soft_costs_startup + i.soft_costs_insurance + i.soft_costs_taxes

/-- `soft_costs` in raw dollars (lines 80-89). -/
def soft_costs_raw (i : CapexInputs) : ℚ :=
  total_hard_costs i * soft_cost_pct_sum i / 100

/-- The result dictionary of `calculate_capex`, in millions. -/
structure CapexBreakdown where
  solar : ℚ
  bess : ℚ
  generator : ℚ
  system_integration : ℚ
  soft_costs : ℚ

/-- `calculate_capex` (lines 31-98). -/
def calculate_capex (i : CapexInputs) : CapexBreakdown :=
  { solar := solar_capex_raw i / 1000000
    bess := bess_capex_raw i / 1000000
    generator := generator_capex_raw i / 1000000
    system_integration := system_integration_capex_raw i / 1000000
    soft_costs := soft_costs_raw i / 1000000 }

/-- The dated rows of the hard-coded index, `-1..20`. -/
def standard_dated_rows : List Row :=
  (List.range 22).map (fun (k : ℕ) => Row.yr ((k : ℤ) - 1))

/-- The row labels of a successfully built table: `-1..20` then `NPV`. -/
def standard_rows : List Row :=
  standard_dated_rows ++ [Row.npv]

/-- A baseline scenario used to instantiate the universally quantified
theorems below: 100 MW load, 150 MW solar, 50 MW battery, 100 MW generator,
total CAPEX 105 $M at 70 % leverage, 7.5 % debt over 20 years. -/
def baseline_params : Params :=
  { datacenter_load_mw := 100
    solar_pv_capacity_mw := 150
    bess_max_power_mw := 50
    generator_capacity_mw := 100
    solar_capex := 40
    bess_capex := 30
    generator_capex := 20
    system_integration_capex := 10
    soft_costs_capex := 5
    generator_om_fixed_dollar_per_kw := 10
    generator_om_variable_dollar_per_kwh := 1/40
    fuel_price_dollar_per_mmbtu := 5
    fuel_escalator_pct := 3
    solar_om_fixed_dollar_per_kw := 11
    bess_om_fixed_dollar_per_kw := 5/2
    bos_om_fixed_dollar_per_kw_load := 6
    soft_om_pct := 1/4
    om_escalator_pct := 5/2
    lcoe_dollar_per_mwh := 100
    depreciation_schedule := [20, 32, 96/5, 288/25, 288/25, 144/25]
    investment_tax_credit_pct := 30
    cost_of_debt_pct := 15/2
    leverage_pct := 70
    debt_term_years := 20
    cost_of_equity_pct := 11
    combined_tax_rate_pct := 21
    construction_time_years := 2 }

/-- A baseline two-year simulation summary for the same scenario. -/
def baseline_sim : List SimRow :=
  [ { opYear := 1, solarNet := 500000, bessNet := 40000, genOut := 70000
    , fuelIn := 600000, loadServed := 876000 }
  , { opYear := 2, solarNet := 495000, bessNet := 39000, genOut := 71000
    , fuelIn := 610000, loadServed := 876000 } ]

/-- The baseline scenario with a zero cost of debt. -/
def zero_rate_params : Params :=
  { baseline_params with cost_of_debt_pct := 0 }

/-- The baseline scenario with all four hard-CAPEX components zero. -/
def zero_capex_params : Params :=
  { baseline_params with
      solar_capex := 0
      bess_capex := 0
      generator_capex := 0
      system_integration_capex := 0 }

/-! ### Basic lemmas about `Table.set` and `Table.setRows` -/

theorem Table.cells_set_same (t : Table) (r : Row) (c : Col) (v : Option ℚ) :
    (t.set r c v).cells r c = v := by
  simp [Table.set]

theorem Table.cells_set_row_ne (t : Table) {r r' : Row} (c : Col) (v : Option ℚ) (c' : Col)
    (h : r' ≠ r) : (t.set r c v).cells r' c' = t.cells r' c' := by
  simp [Table.set, h]

theorem Table.cells_set_col_ne (t : Table) (r : Row) {c : Col} (v : Option ℚ) (r' : Row) {c' : Col}
    (h : c' ≠ c) : (t.set r c v).cells r' c' = t.cells r' c' := by
  simp [Table.set, h]

theorem Table.set_rowIndex_of_mem {t : Table} {r : Row} (c : Col) (v : Option ℚ)
    (h : r ∈ t.rowIndex) : (t.set r c v).rowIndex = t.rowIndex := by
  simp [Table.set, h]

theorem Table.set_rowIndex_of_not_mem {t : Table} {r : Row} (c : Col) (v : Option ℚ)
    (h : r ∉ t.rowIndex) : (t.set r c v).rowIndex = t.rowIndex ++ [r] := by
  simp [Table.set, h]

theorem Table.set_colIndex_of_mem {t : Table} (r : Row) {c : Col} (v : Option ℚ)
    (h : c ∈ t.colIndex) : (t.set r c v).colIndex = t.colIndex := by
  simp [Table.set, h]

theorem Table.set_colIndex_of_not_mem {t : Table} (r : Row) {c : Col} (v : Option ℚ)
    (h : c ∉ t.colIndex) : (t.set r c v).colIndex = t.colIndex ++ [c] := by
  simp [Table.set, h]

theorem Table.setRows_rowIndex_of_subset {t : Table} {rs : List Row} (c : Col) (f : Row → Option ℚ)
    (h : ∀ r ∈ rs, r ∈ t.rowIndex) : (t.setRows rs c f).rowIndex = t.rowIndex := by
  induction rs generalizing t with
  | nil => rfl
  | cons a l ih =>
      have ha : a ∈ t.rowIndex := h a (List.mem_cons_self a l)
      have step : (t.set a c (f a)).rowIndex = t.rowIndex := Table.set_rowIndex_of_mem c (f a) ha
      have : (t.setRows (a :: l) c f) = ((t.set a c (f a)).setRows l c f) := rfl
      rw [this, ih, step]
      intro r hr
      rw [step]
      exact h r (List.mem_cons_of_mem a hr)

theorem Table.setRows_colIndex_of_mem {t : Table} (rs : List Row) {c : Col} (f : Row → Option ℚ)
    (h : c ∈ t.colIndex) : (t.setRows rs c f).colIndex = t.colIndex := by
  induction rs generalizing t with
  | nil => rfl
  | cons a l ih =>
      have step : (t.set a c (f a)).colIndex = t.colIndex := Table.set_colIndex_of_mem a (f a) h
      have : (t.setRows (a :: l) c f) = ((t.set a c (f a)).setRows l c f) := rfl
      rw [this, ih, step]
      rw [step]
      exact h

theorem Table.setRows_colIndex_of_not_mem {t : Table} {rs : List Row} {c : Col}
    (f : Row → Option ℚ) (h : c ∉ t.colIndex) (hrs : rs ≠ []) :
    (t.setRows rs c f).colIndex = t.colIndex ++ [c] := by
  cases rs with
  | nil => exact absurd rfl hrs
  | cons a l =>
      have step : (t.set a c (f a)).colIndex = t.colIndex ++ [c] :=
        Table.set_colIndex_of_not_mem a (f a) h
      have h2 : (t.setRows (a :: l) c f) = ((t.set a c (f a)).setRows l c f) := rfl
      rw [h2, Table.setRows_colIndex_of_mem l f (by rw [step]; simp), step]

theorem Table.cells_setRows_col_ne {t : Table} (rs : List Row) {c : Col} (f : Row → Option ℚ)
    (r' : Row) {c' : Col} (h : c' ≠ c) : (t.setRows rs c f).cells r' c' = t.cells r' c' := by
  induction rs generalizing t with
  | nil => rfl
  | cons a l ih =>
      have h2 : (t.setRows (a :: l) c f) = ((t.set a c (f a)).setRows l c f) := rfl
      rw [h2, ih, Table.cells_set_col_ne t a (f a) r' h]

theorem Table.cells_setRows_not_mem {t : Table} {rs : List Row} (c : Col) (f : Row → Option ℚ)
    {r' : Row} (c' : Col) (h : r' ∉ rs) : (t.setRows rs c f).cells r' c' = t.cells r' c' := by
  induction rs generalizing t with
  | nil => rfl
  | cons a l ih =>
      have h2 : (t.setRows (a :: l) c f) = ((t.set a c (f a)).setRows l c f) := rfl
      have hne : r' ≠ a := fun hr => h (hr ▸ List.mem_cons_self a l)
      rw [h2, ih (fun hl => h (List.mem_cons_of_mem a hl)),
        Table.cells_set_row_ne t c (f a) c' hne]

theorem Table.cells_setRows_mem {t : Table} {rs : List Row} (c : Col) (f : Row → Option ℚ)
    {r' : Row} (h : r' ∈ rs) : (t.setRows rs c f).cells r' c = f r' := by
  induction rs generalizing t with
  | nil => exact absurd h (List.not_mem_nil r')
  | cons a l ih =>
      have h2 : (t.setRows (a :: l) c f) = ((t.set a c (f a)).setRows l c f) := rfl
      by_cases hl : r' ∈ l
      · rw [h2, ih hl]
      · have ha : r' = a := by
          rcases List.mem_cons.mp h with h1 | h1
          · exact h1
          · exact absurd h1 hl
        subst ha
        rw [h2, Table.cells_setRows_not_mem c f c hl, Table.cells_set_same]

/-! ### Claims C9, C8, C5, C1, C7 -/

/-- Claim C9: `calculate_capex` satisfies
`total_hard_capex = solar + bess + generator + system_integration` (the four
returned components sum to the raw hard-cost subtotal scaled to millions)
and `soft_costs = total_hard_capex * sum(soft_pct) / 100`; the same
additivity of the total hard CAPEX from the four components holds inside
`calculate_pro_forma`. -/
theorem C9_capex_additivity (i : CapexInputs) (p : Params) :
    (calculate_capex i).solar + (calculate_capex i).bess + (calculate_capex i).generator +
        (calculate_capex i).system_integration = total_hard_costs i / 1000000 ∧
      (calculate_capex i).soft_costs =
        ((calculate_capex i).solar + (calculate_capex i).bess + (calculate_capex i).generator +
            (calculate_capex i).system_integration) * soft_cost_pct_sum i / 100 ∧
      total_hard_capex p =
        p.solar_capex + p.bess_capex + p.generator_capex + p.system_integration_capex := by
  refine ⟨?_, ?_, rfl⟩
  · simp only [calculate_capex, total_hard_costs]
    ring
  · simp only [calculate_capex, soft_costs_raw, total_hard_costs]
    ring

/-- Claim C8 counterexample: with base rate 5 > 0 and escalator 3 > 0, the
escalated unit rate of the second operating year does not exceed the first
year's rate — the stored rates carry the −1 sign, so they decrease. -/
theorem C8_counterexample :
    (0:ℚ) < 5 ∧ (0:ℚ) < 3 ∧ ¬ (escalated_rate 5 3 1 > escalated_rate 5 3 0) := by
  norm_num [escalated_rate]

/-- Claim C8 (amended): for base rate > 0 and positive escalator the signed
escalated unit rate `-1 * base * (1 + e/100)^k` of each successive operating
year is strictly below (not above) the prior year's — its magnitude strictly
increases — and at escalator 0 successive rates are equal. -/
theorem C8_escalation_antitone (base e : ℚ) (k : ℕ) (hb : 0 < base) (he : 0 < e) :
    escalated_rate base e (k + 1) < escalated_rate base e k ∧
      escalated_rate base 0 (k + 1) = escalated_rate base 0 k := by
  constructor
  · simp only [escalated_rate, pow_succ]
    have h1 : (0:ℚ) < 1 + e / 100 := by linarith
    have h2 : (0:ℚ) < (1 + e / 100) ^ k := pow_pos h1 k
    nlinarith [mul_pos hb h2]
  · simp [escalated_rate]

/-- Witness for `C8_escalation_antitone` at base 5, escalator 3, first
operating year. -/
theorem C8_escalation_antitone_witness :
    escalated_rate 5 3 (0 + 1) < escalated_rate 5 3 0 ∧
      escalated_rate 5 0 (0 + 1) = escalated_rate 5 0 0 :=
  C8_escalation_antitone 5 3 0 (by norm_num) (by norm_num)

/-- The opening debt balance of the debt/tax loop (lines 281-288): the
balance at the start of year `k+1` follows from the balance at the start of
year `k` by adding the principal payment, i.e. the debt service `-payment`
minus the interest expense `-balance * r`, so
`b (k+1) = b k + (-payment + b k * r) = b k * (1 + r) - payment`. -/
def debt_balance (P r payment : ℚ) : ℕ → ℚ
  | 0 => P
  | k + 1 => debt_balance P r payment k * (1 + r) - payment

theorem debt_balance_mul_r (P r payment : ℚ) (k : ℕ) :
    debt_balance P r payment k * r = (P * r - payment) * (1 + r) ^ k + payment := by
  induction k with
  | zero => simp [debt_balance]
  | succ k ih =>
      have step : debt_balance P r payment (k + 1) * r =
          (debt_balance P r payment k * r) * (1 + r) - payment * r := by
        simp only [debt_balance]
        ring
      rw [step, ih, pow_succ]
      ring

theorem debt_balance_zero_at_term (P r : ℚ) (n : ℕ) (hr : r ≠ 0)
    (hA : (1 + r) ^ n - 1 ≠ 0) :
    debt_balance P r (amort_payment P r n) n = 0 := by
  have h := debt_balance_mul_r P r (amort_payment P r n) n
  have h0 : debt_balance P r (amort_payment P r n) n * r = 0 := by
    rw [h]
    unfold amort_payment
    field_simp
    ring
  rcases mul_eq_zero.mp h0 with h1 | h1
  · exact h1
  · exact absurd h1 hr

/-- Claim C5: for principal P ≥ 0, rate r > 0 and term n ≥ 1, the fixed
payment of the amortization formula together with the declining-balance
recurrence of the loop fully amortizes the loan: P equals the sum over the
n years of (payment − interest) where the interest of year k+1 is the
opening balance times r. -/
theorem C5_amortization_correctness (P r : ℚ) (n : ℕ) (_hP : 0 ≤ P) (hr : 0 < r)
    (hn : 1 ≤ n) :
    P = ∑ k ∈ Finset.range n,
      (amort_payment P r n - debt_balance P r (amort_payment P r n) k * r) := by
  have hA : (1 + r) ^ n - 1 ≠ 0 := by
    have h1 : (1:ℚ) < 1 + r := by linarith
    have h2 : (1:ℚ) < (1 + r) ^ n := one_lt_pow₀ h1 (by omega)
    linarith
  have key : ∀ k, amort_payment P r n - debt_balance P r (amort_payment P r n) k * r =
      debt_balance P r (amort_payment P r n) k - debt_balance P r (amort_payment P r n) (k + 1) := by
    intro k
    simp only [debt_balance]
    ring
  calc P = debt_balance P r (amort_payment P r n) 0 -
        debt_balance P r (amort_payment P r n) n := by
          rw [debt_balance_zero_at_term P r n (ne_of_gt hr) hA]
          simp [debt_balance]
    _ = ∑ k ∈ Finset.range n,
          (debt_balance P r (amort_payment P r n) k -
            debt_balance P r (amort_payment P r n) (k + 1)) :=
        (Finset.sum_range_sub' _ n).symm
    _ = ∑ k ∈ Finset.range n,
          (amort_payment P r n - debt_balance P r (amort_payment P r n) k * r) :=
        Finset.sum_congr rfl (fun k _ => (key k).symm)

/-- Witness for `C5_amortization_correctness`: a 100 loan at 10 % over
2 years. -/
theorem C5_amortization_correctness_witness :
    (100:ℚ) = ∑ k ∈ Finset.range 2,
      (amort_payment 100 (1/10) 2 - debt_balance 100 (1/10) (amort_payment 100 (1/10) 2) k * (1/10)) :=
  C5_amortization_correctness 100 (1/10) 2 (by norm_num) (by norm_num) (by norm_num)

/-- Claim C1 (code bug): at cost_of_debt_pct = 0 the code does not
special-case the amortization formula; line 197 computes 0.0/0.0 and raises
ZeroDivisionError instead of producing total_debt / debt_term_years. -/
theorem C1_zero_rate_division_by_zero :
    calculate_pro_forma_raw baseline_sim zero_rate_params = Except.error PyErr.zeroDivisionError := by
  with_unfolding_all rfl

/-- Claim C7 counterexample: with all four hard-CAPEX components zero the
code raises a bare ZeroDivisionError at the renewable-proportion division;
no `InvalidScenario` domain error exists anywhere in the code. -/
theorem C7_counterexample :
    calculate_pro_forma_raw baseline_sim zero_capex_params = Except.error PyErr.zeroDivisionError ∧
      calculate_pro_forma_raw baseline_sim zero_capex_params ≠ Except.error PyErr.invalidScenario := by
  have h1 : calculate_pro_forma_raw baseline_sim zero_capex_params =
      Except.error PyErr.zeroDivisionError := by
    with_unfolding_all rfl
  refine ⟨h1, ?_⟩
  rw [h1]
  simp

/-- Claim C7 (amended): when the total hard CAPEX is zero (and the
amortization denominator, which is evaluated first, is nonzero), the
computation fails with ZeroDivisionError rather than propagating NaN/Inf
into the renewable-proportion computation; it does not surface a dedicated
InvalidScenario error. -/
theorem C7_zero_hard_capex_errors (sim : List SimRow) (p : Params)
    (hA : (1 + interest_rate p) ^ p.debt_term_years - 1 ≠ 0)
    (h0 : total_hard_capex p = 0) :
    calculate_pro_forma_raw sim p = Except.error PyErr.zeroDivisionError := by
  unfold calculate_pro_forma_raw
  rw [if_neg hA, if_pos h0]

/-- Witness for `C7_zero_hard_capex_errors` at the zero-CAPEX baseline. -/
theorem C7_zero_hard_capex_errors_witness :
    calculate_pro_forma_raw baseline_sim zero_capex_params = Except.error PyErr.zeroDivisionError :=
  C7_zero_hard_capex_errors baseline_sim zero_capex_params
    (by with_unfolding_all decide) (by with_unfolding_all decide)

/-! ### Membership lemmas and inversion of a successful run -/

theorem Row.yr_ne_of_ne {y z : ℤ} (h : y ≠ z) : Row.yr y ≠ Row.yr z := by
  intro hc
  exact h (Row.yr.inj hc)

theorem mem_loop_years {y : ℤ} : y ∈ loop_years ↔ 1 ≤ y ∧ y ≤ 20 := by
  constructor
  · intro h
    unfold loop_years at h
    obtain ⟨k, hk, hke⟩ := List.mem_map.mp h
    rw [List.mem_range] at hk
    omega
  · intro h
    refine List.mem_map.mpr ⟨(y - 1).toNat, ?_, ?_⟩
    · rw [List.mem_range]
      omega
    · omega

theorem mem_construction_years {n : ℕ} {y : ℤ} :
    y ∈ construction_years n ↔ 1 - (n : ℤ) ≤ y ∧ y ≤ 0 := by
  constructor
  · intro h
    unfold construction_years at h
    obtain ⟨k, hk, hke⟩ := List.mem_map.mp h
    rw [List.mem_range] at hk
    omega
  · intro h
    refine List.mem_map.mpr ⟨(y + (n : ℤ) - 1).toNat, ?_, ?_⟩
    · rw [List.mem_range]
      omega
    · omega

theorem mem_standard_dated_rows {y : ℤ} :
    Row.yr y ∈ standard_dated_rows ↔ -1 ≤ y ∧ y ≤ 20 := by
  constructor
  · intro h
    unfold standard_dated_rows at h
    obtain ⟨k, hk, hke⟩ := List.mem_map.mp h
    rw [List.mem_range] at hk
    have hky := Row.yr.inj hke
    omega
  · intro h
    refine List.mem_map.mpr ⟨(y + 1).toNat, ?_, ?_⟩
    · rw [List.mem_range]
      omega
    · congr 1
      omega

theorem npv_not_mem_standard_dated_rows : Row.npv ∉ standard_dated_rows := by
  decide

/-- Inverting a successful run: the result is the built table and all the
guard conditions were passed. -/
theorem raw_ok_inv {sim : List SimRow} {p : Params} {T : Table}
    (h : calculate_pro_forma_raw sim p = Except.ok T) :
    T = build_table sim p ∧
      (1 + interest_rate p) ^ p.debt_term_years - 1 ≠ 0 ∧
      total_hard_capex p ≠ 0 ∧
      p.construction_time_years ≠ 0 ∧
      (∀ y ∈ construction_years p.construction_time_years,
        Row.yr y ∈ (sim_assign sim init_table).rowIndex) ∧
      sim ≠ [] := by
  unfold calculate_pro_forma_raw at h
  by_cases h1 : (1 + interest_rate p) ^ p.debt_term_years - 1 = 0
  · rw [if_pos h1] at h
    exact Except.noConfusion h
  rw [if_neg h1] at h
  by_cases h2 : total_hard_capex p = 0
  · rw [if_pos h2] at h
    exact Except.noConfusion h
  rw [if_neg h2] at h
  by_cases h3 : p.construction_time_years = 0
  · rw [if_pos h3] at h
    exact Except.noConfusion h
  rw [if_neg h3] at h
  by_cases h4 : ∃ y ∈ construction_years p.construction_time_years,
      Row.yr y ∉ (sim_assign sim init_table).rowIndex
  · rw [if_pos h4] at h
    exact Except.noConfusion h
  rw [if_neg h4] at h
  push_neg at h4
  by_cases h5 : sim.isEmpty
  · rw [if_pos h5] at h
    exact Except.noConfusion h
  rw [if_neg h5] at h
  refine ⟨(Except.ok.inj h).symm, h1, h2, h3, h4, ?_⟩
  intro hnil
  subst hnil
  simp at h5

/-! ### Cell tracking through the debt/tax loop and the NPV loop -/

theorem debt_tax_step_debt_service (p : Params) (t : Table) (year : ℤ) :
    (debt_tax_step p t year).cells (Row.yr year) ("Debt Service") =
      some (-1 * fixed_debt_payment p) := by
  simp only [debt_tax_step]
  by_cases hterm : year < (p.debt_term_years : ℤ)
  · rw [if_pos hterm]
    rw [Table.cells_set_col_ne _ _ _ _ (by decide)]
    rw [Table.cells_set_col_ne _ _ _ _ (by decide)]
    rw [Table.cells_set_col_ne _ _ _ _ (by decide)]
    rw [Table.cells_set_col_ne _ _ _ _ (by decide)]
    rw [Table.cells_set_col_ne _ _ _ _ (by decide)]
    rw [Table.cells_set_col_ne _ _ _ _ (by decide)]
    rw [Table.cells_set_same]
  · rw [if_neg hterm]
    rw [Table.cells_set_col_ne _ _ _ _ (by decide)]
    rw [Table.cells_set_col_ne _ _ _ _ (by decide)]
    rw [Table.cells_set_col_ne _ _ _ _ (by decide)]
    rw [Table.cells_set_col_ne _ _ _ _ (by decide)]
    rw [Table.cells_set_col_ne _ _ _ _ (by decide)]
    rw [Table.cells_set_same]

theorem debt_tax_step_cells_ds_ne (p : Params) (t : Table) {year y : ℤ} (h : y ≠ year) :
    (debt_tax_step p t year).cells (Row.yr y) ("Debt Service") =
      t.cells (Row.yr y) ("Debt Service") := by
  simp only [debt_tax_step]
  by_cases hterm : year < (p.debt_term_years : ℤ)
  · rw [if_pos hterm]
    rw [Table.cells_set_col_ne _ _ _ _ (by decide)]
    rw [Table.cells_set_col_ne _ _ _ _ (by decide)]
    rw [Table.cells_set_col_ne _ _ _ _ (by decide)]
    rw [Table.cells_set_col_ne _ _ _ _ (by decide)]
    rw [Table.cells_set_col_ne _ _ _ _ (by decide)]
    rw [Table.cells_set_col_ne _ _ _ _ (by decide)]
    rw [Table.cells_set_row_ne _ _ _ _ (Row.yr_ne_of_ne h)]
    rw [Table.cells_set_col_ne _ _ _ _ (by decide)]
  · rw [if_neg hterm]
    rw [Table.cells_set_col_ne _ _ _ _ (by decide)]
    rw [Table.cells_set_col_ne _ _ _ _ (by decide)]
    rw [Table.cells_set_col_ne _ _ _ _ (by decide)]
    rw [Table.cells_set_col_ne _ _ _ _ (by decide)]
    rw [Table.cells_set_col_ne _ _ _ _ (by decide)]
    rw [Table.cells_set_row_ne _ _ _ _ (Row.yr_ne_of_ne h)]
    rw [Table.cells_set_col_ne _ _ _ _ (by decide)]

theorem debt_tax_step_cells_other (p : Params) (t : Table) {year : ℤ} {r : Row} (c : Col)
    (h1 : r ≠ Row.yr year) (h2 : r ≠ Row.yr (year + 1)) :
    (debt_tax_step p t year).cells r c = t.cells r c := by
  simp only [debt_tax_step]
  by_cases hterm : year < (p.debt_term_years : ℤ)
  · rw [if_pos hterm]
    rw [Table.cells_set_row_ne _ _ _ _ h1]
    rw [Table.cells_set_row_ne _ _ _ _ h1]
    rw [Table.cells_set_row_ne _ _ _ _ h1]
    rw [Table.cells_set_row_ne _ _ _ _ h1]
    rw [Table.cells_set_row_ne _ _ _ _ h2]
    rw [Table.cells_set_row_ne _ _ _ _ h1]
    rw [Table.cells_set_row_ne _ _ _ _ h1]
    rw [Table.cells_set_row_ne _ _ _ _ h1]
  · rw [if_neg hterm]
    rw [Table.cells_set_row_ne _ _ _ _ h1]
    rw [Table.cells_set_row_ne _ _ _ _ h1]
    rw [Table.cells_set_row_ne _ _ _ _ h1]
    rw [Table.cells_set_row_ne _ _ _ _ h1]
    rw [Table.cells_set_row_ne _ _ _ _ h1]
    rw [Table.cells_set_row_ne _ _ _ _ h1]
    rw [Table.cells_set_row_ne _ _ _ _ h1]

theorem debt_fold_ds_preserved (p : Params) (L : List ℤ) (t : Table) {y : ℤ}
    (h : t.cells (Row.yr y) ("Debt Service") = some (-1 * fixed_debt_payment p)) :
    (L.foldl (debt_tax_step p) t).cells (Row.yr y) ("Debt Service") =
      some (-1 * fixed_debt_payment p) := by
  induction L generalizing t with
  | nil => exact h
  | cons a l ih =>
      apply ih
      by_cases hy : y = a
      · subst hy
        exact debt_tax_step_debt_service p t y
      · rw [debt_tax_step_cells_ds_ne p t hy]
        exact h

theorem debt_fold_ds_mem (p : Params) (L : List ℤ) (t : Table) {y : ℤ} (h : y ∈ L) :
    (L.foldl (debt_tax_step p) t).cells (Row.yr y) ("Debt Service") =
      some (-1 * fixed_debt_payment p) := by
  induction L generalizing t with
  | nil => exact absurd h (List.not_mem_nil y)
  | cons a l ih =>
      by_cases hy : y ∈ l
      · exact ih _ hy
      · have hya : y = a := by
          rcases List.mem_cons.mp h with h1 | h1
          · exact h1
          · exact absurd h1 hy
        subst hya
        exact debt_fold_ds_preserved p l _ (debt_tax_step_debt_service p t y)

theorem debt_fold_cells_other (p : Params) (L : List ℤ) (t : Table) {r : Row} (c : Col)
    (h : ∀ a ∈ L, r ≠ Row.yr a ∧ r ≠ Row.yr (a + 1)) :
    (L.foldl (debt_tax_step p) t).cells r c = t.cells r c := by
  induction L generalizing t with
  | nil => rfl
  | cons a l ih =>
      have ha := h a (List.mem_cons_self a l)
      rw [List.foldl_cons, ih _ (fun b hb => h b (List.mem_cons_of_mem a hb)),
        debt_tax_step_cells_other p t c ha.1 ha.2]

theorem npv_loop_step_cells_yr (p : Params) (t : Table) (col : Col) (y : ℤ) (c : Col) :
    (npv_loop_step p t col).cells (Row.yr y) c = t.cells (Row.yr y) c := by
  unfold npv_loop_step
  have hne : Row.yr y ≠ Row.npv := by intro hc; exact Row.noConfusion hc
  split
  · rw [Table.cells_set_row_ne _ _ _ _ hne]
  split
  · rw [Table.cells_set_row_ne _ _ _ _ hne]
  split
  · rw [Table.cells_set_row_ne _ _ _ _ hne]
  rfl

theorem npv_fold_cells_yr (p : Params) (L : List Col) (t : Table) (y : ℤ) (c : Col) :
    (L.foldl (npv_loop_step p) t).cells (Row.yr y) c = t.cells (Row.yr y) c := by
  induction L generalizing t with
  | nil => rfl
  | cons a l ih =>
      rw [List.foldl_cons, ih, npv_loop_step_cells_yr]

theorem npv_loop_cells_yr (p : Params) (t : Table) (y : ℤ) (c : Col) :
    (npv_loop p t).cells (Row.yr y) c = t.cells (Row.yr y) c :=
  npv_fold_cells_yr p t.colIndex t y c

theorem tax_and_equity_columns_cells_other (p : Params) (t : Table) (r : Row) {c : Col}
    (h1 : c ≠ ("Tax Benefit (Liability)")) (h2 : c ≠ ("After-Tax Net Equity Cash Flow")) :
    (tax_and_equity_columns p t).cells r c = t.cells r c := by
  simp only [tax_and_equity_columns]
  rw [Table.cells_setRows_col_ne _ _ _ h2, Table.cells_setRows_col_ne _ _ _ h1]

/-! ### Claim C4 -/

/-- Claim C4: in every successfully built pro forma, the Debt Service cell
of every operating year 1..20 equals minus the fixed annual payment,
unconditionally — the same fixed payment regardless of whether the year
exceeds debt_term_years. -/
theorem C4_debt_service_unconditional (sim : List SimRow) (p : Params) (T : Table)
    (h : calculate_pro_forma_raw sim p = Except.ok T) {y : ℤ} (h1 : 1 ≤ y) (h2 : y ≤ 20) :
    T.cells (Row.yr y) ("Debt Service") = some (-1 * fixed_debt_payment p) := by
  obtain ⟨hT, -⟩ := raw_ok_inv h
  subst hT
  unfold build_table
  rw [npv_loop_cells_yr]
  unfold build_body
  rw [tax_and_equity_columns_cells_other p _ _ (by decide) (by decide)]
  unfold debt_tax_loop
  exact debt_fold_ds_mem p loop_years _ (mem_loop_years.mpr ⟨h1, h2⟩)

/-- Witness for `C4_debt_service_unconditional`: the baseline scenario at
operating year 1. -/
theorem C4_debt_service_unconditional_witness :
    (build_table baseline_sim baseline_params).cells (Row.yr 1) ("Debt Service") =
      some (-1 * fixed_debt_payment baseline_params) :=
  C4_debt_service_unconditional baseline_sim baseline_params
    (build_table baseline_sim baseline_params) (by with_unfolding_all rfl)
    (by norm_num) (by norm_num)

/-! ### Claim C3 -/

/-- The fourteen columns assigned by the operating-period stage. -/
def operating_columns : List Col :=
  [ "Fuel Unit Cost", "Solar Fixed O&M Rate", "Battery Fixed O&M Rate", "Generator Fixed O&M Rate"
  , "Generator Variable O&M Rate", "BOS Fixed O&M Rate", "Soft O&M Rate", "Fixed O&M Cost"
  , "Fuel Cost", "Variable O&M Cost", "Total Operating Costs", "LCOE", "Revenue", "EBITDA" ]

theorem operating_stage_cells_other (p : Params) (t : Table) (r : Row) {c : Col}
    (h : c ∉ operating_columns) : (operating_stage p t).cells r c = t.cells r c := by
  have hne : ∀ cc : Col, cc ∈ operating_columns → c ≠ cc :=
    fun cc hcc heq => h (by rw [heq]; exact hcc)
  simp only [operating_stage]
  rw [Table.cells_setRows_col_ne _ _ _ (hne _ (by decide))]
  rw [Table.cells_setRows_col_ne _ _ _ (hne _ (by decide))]
  rw [Table.cells_setRows_col_ne _ _ _ (hne _ (by decide))]
  rw [Table.cells_setRows_col_ne _ _ _ (hne _ (by decide))]
  rw [Table.cells_setRows_col_ne _ _ _ (hne _ (by decide))]
  rw [Table.cells_setRows_col_ne _ _ _ (hne _ (by decide))]
  rw [Table.cells_setRows_col_ne _ _ _ (hne _ (by decide))]
  rw [Table.cells_setRows_col_ne _ _ _ (hne _ (by decide))]
  rw [Table.cells_setRows_col_ne _ _ _ (hne _ (by decide))]
  rw [Table.cells_setRows_col_ne _ _ _ (hne _ (by decide))]
  rw [Table.cells_setRows_col_ne _ _ _ (hne _ (by decide))]
  rw [Table.cells_setRows_col_ne _ _ _ (hne _ (by decide))]
  rw [Table.cells_setRows_col_ne _ _ _ (hne _ (by decide))]
  rw [Table.cells_setRows_col_ne _ _ _ (hne _ (by decide))]

/-- The three construction-period cells of the built table, for any
construction year, traced through the later stages (which never touch these
columns at dated rows). -/
theorem build_table_construction_cells (sim : List SimRow) (p : Params) (y : ℤ)
    (hy : y ∈ construction_years p.construction_time_years) :
    (build_table sim p).cells (Row.yr y) ("Capital Expenditure") =
        some (-1 * (total_capex p / (p.construction_time_years : ℚ))) ∧
      (build_table sim p).cells (Row.yr y) ("Debt Contribution") =
        some ((total_capex p / (p.construction_time_years : ℚ)) * (p.leverage_pct / 100)) ∧
      (build_table sim p).cells (Row.yr y) ("Equity Capex") =
        some (-1 * (total_capex p / (p.construction_time_years : ℚ)) * (1 - p.leverage_pct / 100)) := by
  obtain ⟨hy1, hy2⟩ := mem_construction_years.mp hy
  have hother : ∀ a ∈ loop_years, Row.yr y ≠ Row.yr a ∧ Row.yr y ≠ Row.yr (a + 1) := by
    intro a ha
    obtain ⟨ha1, ha2⟩ := mem_loop_years.mp ha
    exact ⟨Row.yr_ne_of_ne (by omega), Row.yr_ne_of_ne (by omega)⟩
  have hmem : Row.yr y ∈ (construction_years p.construction_time_years).map Row.yr :=
    List.mem_map.mpr ⟨y, hy, rfl⟩
  unfold build_table
  rw [npv_loop_cells_yr, npv_loop_cells_yr, npv_loop_cells_yr]
  unfold build_body
  rw [tax_and_equity_columns_cells_other p _ _ (by decide) (by decide),
      tax_and_equity_columns_cells_other p _ _ (by decide) (by decide),
      tax_and_equity_columns_cells_other p _ _ (by decide) (by decide)]
  unfold debt_tax_loop
  rw [debt_fold_cells_other p loop_years _ _ hother,
      debt_fold_cells_other p loop_years _ _ hother,
      debt_fold_cells_other p loop_years _ _ hother]
  rw [operating_stage_cells_other p _ _ (by decide),
      operating_stage_cells_other p _ _ (by decide),
      operating_stage_cells_other p _ _ (by decide)]
  refine ⟨?_, ?_, ?_⟩
  · rw [Table.cells_setRows_col_ne _ _ _ (by decide),
        Table.cells_setRows_col_ne _ _ _ (by decide)]
    rw [Table.cells_setRows_mem _ _ hmem]
  · rw [Table.cells_setRows_col_ne _ _ _ (by decide)]
    rw [Table.cells_setRows_mem _ _ hmem]
  · rw [Table.cells_setRows_mem _ _ hmem]

/-- Claim C3 counterexample: in the baseline scenario (leverage 70 %, total
CAPEX 105 over 2 construction years, so each construction year carries
-52.5), the construction-year cells are Equity Capex = -15.75,
Debt Contribution = +36.75 (recorded positive), Capital Expenditure =
-52.5, and Equity Capex + Debt Contribution = 21 ≠ -52.5. -/
theorem C3_counterexample :
    calculate_pro_forma_raw baseline_sim baseline_params =
        Except.ok (build_table baseline_sim baseline_params) ∧
      (build_table baseline_sim baseline_params).cells (Row.yr 0) ("Equity Capex") =
        some (-63/4) ∧
      (build_table baseline_sim baseline_params).cells (Row.yr 0) ("Debt Contribution") =
        some (147/4) ∧
      (build_table baseline_sim baseline_params).cells (Row.yr 0) ("Capital Expenditure") =
        some (-105/2) ∧
      ((-63/4 : ℚ) + 147/4 ≠ -105/2) := by
  obtain ⟨hc, hd, he⟩ :=
    build_table_construction_cells baseline_sim baseline_params 0 (by decide)
  refine ⟨by with_unfolding_all rfl, ?_, ?_, ?_, by norm_num⟩
  · rw [he]
    norm_num [total_capex, total_hard_capex, baseline_params]
  · rw [hd]
    norm_num [total_capex, total_hard_capex, baseline_params]
  · rw [hc]
    norm_num [total_capex, total_hard_capex, baseline_params]

/-- Claim C3 (amended): for every construction-year row of a successfully
built table, Equity Capex minus Debt Contribution equals Capital
Expenditure — the Debt Contribution is recorded positive, so the two
contributions split the negated CAPEX share, |Equity| + |Debt| = |Capex|. -/
theorem C3_construction_split (sim : List SimRow) (p : Params) (T : Table)
    (h : calculate_pro_forma_raw sim p = Except.ok T) (y : ℤ)
    (hy : y ∈ construction_years p.construction_time_years) :
    osub (T.cells (Row.yr y) ("Equity Capex")) (T.cells (Row.yr y) ("Debt Contribution")) =
      T.cells (Row.yr y) ("Capital Expenditure") := by
  obtain ⟨hT, -, -, -, -, -⟩ := raw_ok_inv h
  subst hT
  obtain ⟨hc, hd, he⟩ := build_table_construction_cells sim p y hy
  rw [hc, hd, he]
  simp only [osub]
  congr 1
  ring

/-- Witness for `C3_construction_split`: the baseline scenario at
construction year 0. -/
theorem C3_construction_split_witness :
    osub ((build_table baseline_sim baseline_params).cells (Row.yr 0) ("Equity Capex"))
        ((build_table baseline_sim baseline_params).cells (Row.yr 0) ("Debt Contribution")) =
      (build_table baseline_sim baseline_params).cells (Row.yr 0) ("Capital Expenditure") :=
  C3_construction_split baseline_sim baseline_params
    (build_table baseline_sim baseline_params) (by with_unfolding_all rfl)
    0 (by decide)

/-! ### Claim C6: the NPV row -/

/-- The claim's trichotomy for one column of the NPV row, evaluated against
the table as it stands when the NPV loop starts: an undiscounted sum for
the five energy totals, absent for the excluded rate/unit columns and for
the informational Operating Year column, and the discounted-cash-flow value
of `calculate_npv` for every other column. -/
def npv_row_spec (p : Params) (t : Table) (col : Col) : Option ℚ :=
  if col ∈ CALCULATE_TOTALS then some (column_total t col)
  else if col ∈ EXCLUDE_FROM_NPV then none
  else if col = ("Operating Year") then none
  else some (calculate_npv (dated_values t col) p.cost_of_equity_pct p.construction_time_years)

/-- The table has no NPV row yet and all cells of the absent NPV row are
blank. -/
def NpvClean (t : Table) : Prop :=
  Row.npv ∉ t.rowIndex ∧ ∀ c : Col, t.cells Row.npv c = none

theorem Table.mem_set_rowIndex {t : Table} {r : Row} (c : Col) (v : Option ℚ) {r' : Row} :
    r' ∈ (t.set r c v).rowIndex ↔ r' ∈ t.rowIndex ∨ r' = r := by
  show r' ∈ (if r ∈ t.rowIndex then t.rowIndex else t.rowIndex ++ [r]) ↔ _
  split
  · constructor
    · exact fun h => Or.inl h
    · rintro (h | rfl)
      · exact h
      · assumption
  · rw [List.mem_append, List.mem_singleton]

theorem NpvClean.set {t : Table} (h : NpvClean t) (y : ℤ) (c : Col) (v : Option ℚ) :
    NpvClean (t.set (Row.yr y) c v) := by
  refine ⟨?_, ?_⟩
  · intro hm
    rcases (Table.mem_set_rowIndex c v).mp hm with hm | hm
    · exact h.1 hm
    · exact Row.noConfusion hm
  · intro c'
    rw [Table.cells_set_row_ne _ _ _ _ (fun hc => Row.noConfusion hc)]
    exact h.2 c'

theorem NpvClean.setRows {t : Table} (h : NpvClean t) {rs : List Row} (c : Col)
    (f : Row → Option ℚ) (hrs : ∀ r ∈ rs, r ≠ Row.npv) : NpvClean (t.setRows rs c f) := by
  induction rs generalizing t with
  | nil => exact h
  | cons a l ih =>
      have ha := hrs a (List.mem_cons_self a l)
      have step : (t.setRows (a :: l) c f) = ((t.set a c (f a)).setRows l c f) := rfl
      rw [step]
      cases a with
      | yr ya => exact ih (h.set ya c _) (fun r hr => hrs r (List.mem_cons_of_mem _ hr))
      | npv => exact absurd rfl ha

theorem Table.operatingRows_ne_npv {t : Table} {r : Row} (h : r ∈ t.operatingRows) :
    r ≠ Row.npv := by
  unfold Table.operatingRows at h
  obtain ⟨-, hp⟩ := List.mem_filter.mp h
  intro hc
  subst hc
  simp at hp

theorem Table.operatingRows_subset {t : Table} {r : Row} (h : r ∈ t.operatingRows) :
    r ∈ t.rowIndex :=
  (List.mem_filter.mp h).1

theorem NpvClean.cols_fold {t : Table} (h : NpvClean t) (cs : List Col) (y : ℤ)
    (g : Col → Option ℚ) :
    NpvClean (cs.foldl (fun acc c => acc.set (Row.yr y) c (g c)) t) := by
  induction cs generalizing t with
  | nil => exact h
  | cons a l ih => exact ih (h.set y a (g a))

theorem sim_assign_npv_clean (sim : List SimRow) {t : Table} (h : NpvClean t) :
    NpvClean (sim_assign sim t) := by
  unfold sim_assign
  generalize uniqueFirst (sim.map SimRow.opYear) = ys
  induction ys generalizing t with
  | nil => exact h
  | cons a l ih =>
      rw [List.foldl_cons]
      apply ih
      cases hfind : sim.find? (fun row => row.opYear == a) with
      | none =>
          simp only [hfind]
          exact h
      | some year_data =>
          simp only [hfind]
          exact NpvClean.cols_fold (h.set a _ _) POWERFLOW_COLUMNS_TO_ASSIGN a _

theorem operating_stage_npv_clean (p : Params) {t : Table} (h : NpvClean t) :
    NpvClean (operating_stage p t) := by
  have hops : ∀ r ∈ t.operatingRows, r ≠ Row.npv := fun r hr => Table.operatingRows_ne_npv hr
  simp only [operating_stage]
  exact (((((((((((((
    (h.setRows _ _ hops).setRows _ _ hops).setRows _ _ hops).setRows _ _ hops).setRows
    _ _ hops).setRows _ _ hops).setRows _ _ hops).setRows _ _ hops).setRows _ _ hops).setRows
    _ _ hops).setRows _ _ hops).setRows _ _ hops).setRows _ _ hops).setRows _ _ hops)

theorem debt_tax_step_npv_clean (p : Params) {t : Table} (h : NpvClean t) (year : ℤ) :
    NpvClean (debt_tax_step p t year) := by
  simp only [debt_tax_step]
  by_cases hterm : year < (p.debt_term_years : ℤ)
  · rw [if_pos hterm]
    exact ((((((((h.set _ _ _).set _ _ _).set _ _ _).set _ _ _).set _ _ _).set
      _ _ _).set _ _ _).set _ _ _)
  · rw [if_neg hterm]
    exact (((((((h.set _ _ _).set _ _ _).set _ _ _).set _ _ _).set _ _ _).set
      _ _ _).set _ _ _)

theorem debt_tax_loop_npv_clean (p : Params) {t : Table} (h : NpvClean t) :
    NpvClean (debt_tax_loop p t) := by
  unfold debt_tax_loop
  generalize loop_years = ys
  induction ys generalizing t with
  | nil => exact h
  | cons a l ih =>
      rw [List.foldl_cons]
      exact ih (debt_tax_step_npv_clean p h a)

theorem tax_and_equity_columns_npv_clean (p : Params) {t : Table} (h : NpvClean t) :
    NpvClean (tax_and_equity_columns p t) := by
  simp only [tax_and_equity_columns]
  have h1 := h.setRows ("Tax Benefit (Liability)")
    (fun r => (t.cells r ("Taxable Income")).map (fun ti =>
      -1 * (ti * (p.combined_tax_rate_pct / 100)) + ((t.cells r ("Federal ITC")).getD 0)))
    (fun r hr hc => h.1 (hc ▸ hr))
  exact h1.setRows _ _ (fun r hr hc => h1.1 (hc ▸ hr))

theorem init_table_npv_clean : NpvClean init_table := by
  refine ⟨?_, fun _ => rfl⟩
  intro h
  exact npv_not_mem_standard_dated_rows h

theorem build_body_npv_clean (sim : List SimRow) (p : Params) :
    NpvClean (build_body sim p) := by
  unfold build_body
  apply tax_and_equity_columns_npv_clean
  apply debt_tax_loop_npv_clean
  apply operating_stage_npv_clean
  have h0 := sim_assign_npv_clean sim init_table_npv_clean
  have h1 := (h0.set 1 ("Debt Outstanding, Yr Start") (some (total_debt p)))
  have h2 := (h1.set 1 ("Federal ITC") (some (tax_credit_amount p)))
  have hcy : ∀ r ∈ (construction_years p.construction_time_years).map Row.yr, r ≠ Row.npv := by
    intro r hr
    obtain ⟨ya, -, hya⟩ := List.mem_map.mp hr
    rw [← hya]
    exact fun hc => Row.noConfusion hc
  exact ((h2.setRows _ _ hcy).setRows _ _ hcy).setRows _ _ hcy

theorem map_congr_mem {α β : Type} (l : List α) (f g : α → β) (h : ∀ a ∈ l, f a = g a) :
    l.map f = l.map g := by
  induction l with
  | nil => rfl
  | cons a l ih =>
      rw [List.map_cons, List.map_cons, h a (List.mem_cons_self a l),
        ih (fun b hb => h b (List.mem_cons_of_mem _ hb))]

theorem filterMap_congr_mem {α β : Type} (l : List α) (f g : α → Option β)
    (h : ∀ a ∈ l, f a = g a) : l.filterMap f = l.filterMap g := by
  induction l with
  | nil => rfl
  | cons a l ih =>
      rw [List.filterMap_cons, List.filterMap_cons, h a (List.mem_cons_self a l),
        ih (fun b hb => h b (List.mem_cons_of_mem _ hb))]

theorem filter_ne_npv_append (l : List Row) :
    (l ++ [Row.npv]).filter (fun r => r ≠ Row.npv) = l.filter (fun r => r ≠ Row.npv) := by
  rw [List.filter_append]
  simp

theorem datedRows_eq_of_rows {t0 acc : Table}
    (hrows : acc.rowIndex = t0.rowIndex ∨ acc.rowIndex = t0.rowIndex ++ [Row.npv]) :
    acc.datedRows = t0.datedRows := by
  unfold Table.datedRows
  rcases hrows with h | h
  · rw [h]
  · rw [h]
    exact filter_ne_npv_append _

theorem mem_datedRows_ne_npv {t : Table} {r : Row} (h : r ∈ t.datedRows) : r ≠ Row.npv := by
  unfold Table.datedRows at h
  obtain ⟨-, hp⟩ := List.mem_filter.mp h
  intro hc
  subst hc
  simp at hp

theorem column_total_eq {t0 acc : Table} (c : Col)
    (hrows : acc.rowIndex = t0.rowIndex ∨ acc.rowIndex = t0.rowIndex ++ [Row.npv])
    (hcells : ∀ (y : ℤ) (c' : Col), acc.cells (Row.yr y) c' = t0.cells (Row.yr y) c') :
    column_total acc c = column_total t0 c := by
  unfold column_total
  rw [datedRows_eq_of_rows hrows]
  congr 1
  apply map_congr_mem
  intro r hr
  have hne := mem_datedRows_ne_npv hr
  cases r with
  | yr y => rw [hcells]
  | npv => exact absurd rfl hne

theorem dated_values_eq {t0 acc : Table} (c : Col)
    (hrows : acc.rowIndex = t0.rowIndex ∨ acc.rowIndex = t0.rowIndex ++ [Row.npv])
    (hcells : ∀ (y : ℤ) (c' : Col), acc.cells (Row.yr y) c' = t0.cells (Row.yr y) c') :
    dated_values acc c = dated_values t0 c := by
  unfold dated_values
  have hcongr : ∀ l : List Row,
      l.filterMap (fun r => match r with
        | Row.yr y => some (y, (acc.cells (Row.yr y) c).getD 0)
        | Row.npv => none) =
      l.filterMap (fun r => match r with
        | Row.yr y => some (y, (t0.cells (Row.yr y) c).getD 0)
        | Row.npv => none) := by
    intro l
    apply filterMap_congr_mem
    intro r _
    cases r with
    | yr y =>
        show some (y, (acc.cells (Row.yr y) c).getD 0) =
          some (y, (t0.cells (Row.yr y) c).getD 0)
        rw [hcells]
    | npv => rfl
  rcases hrows with h | h
  · rw [h, hcongr]
  · rw [h, List.filterMap_append, hcongr]
    have hnil : List.filterMap (fun r => match r with
        | Row.yr y => some (y, (acc.cells (Row.yr y) c).getD 0)
        | Row.npv => (none : Option (ℤ × ℚ))) [Row.npv] = [] := rfl
    rw [hnil, List.append_nil]

/-- The invariant maintained along the NPV-row loop: the dated part of the
accumulator is exactly the pre-loop table, and every NPV-row cell is either
already its final value or still blank. -/
def NpvInv (p : Params) (t0 acc : Table) : Prop :=
  (acc.rowIndex = t0.rowIndex ∨ acc.rowIndex = t0.rowIndex ++ [Row.npv]) ∧
    (∀ (y : ℤ) (c : Col), acc.cells (Row.yr y) c = t0.cells (Row.yr y) c) ∧
    (∀ c : Col, acc.cells Row.npv c = npv_row_spec p t0 c ∨ acc.cells Row.npv c = none)

theorem set_npv_rows (t0 : Table) (hclean : NpvClean t0) {acc : Table}
    (hrows : acc.rowIndex = t0.rowIndex ∨ acc.rowIndex = t0.rowIndex ++ [Row.npv])
    (c : Col) (v : Option ℚ) :
    (acc.set Row.npv c v).rowIndex = t0.rowIndex ++ [Row.npv] := by
  rcases hrows with h | h
  · rw [Table.set_rowIndex_of_not_mem c v (by rw [h]; exact hclean.1), h]
  · rw [Table.set_rowIndex_of_mem c v
      (by rw [h]; exact List.mem_append.mpr (Or.inr (List.mem_singleton.mpr rfl))), h]

theorem npv_loop_step_written (p : Params) (t0 : Table) {acc : Table}
    (hinv : NpvInv p t0 acc) (a : Col) :
    (npv_loop_step p acc a).cells Row.npv a = npv_row_spec p t0 a := by
  obtain ⟨hrows, hcells, hdisj⟩ := hinv
  unfold npv_loop_step
  by_cases h1 : a ∈ CALCULATE_TOTALS
  · rw [if_pos h1, Table.cells_set_same]
    unfold npv_row_spec
    rw [if_pos h1, column_total_eq a hrows hcells]
  rw [if_neg h1]
  by_cases h2 : a ∈ EXCLUDE_FROM_NPV
  · rw [if_pos h2, Table.cells_set_same]
    unfold npv_row_spec
    rw [if_neg h1, if_pos h2]
  rw [if_neg h2]
  by_cases h3 : a ≠ ("Operating Year")
  · rw [if_pos h3, Table.cells_set_same]
    unfold npv_row_spec
    rw [if_neg h1, if_neg h2, if_neg (fun hx => h3 hx), dated_values_eq a hrows hcells]
  · rw [if_neg h3]
    push_neg at h3
    subst h3
    unfold npv_row_spec
    rw [if_neg h1, if_neg h2, if_pos rfl]
    rcases hdisj ("Operating Year") with hd | hd
    · rw [hd]
      unfold npv_row_spec
      rw [if_neg h1, if_neg h2, if_pos rfl]
    · exact hd

theorem npv_loop_step_other (p : Params) (acc : Table) (a c : Col) (h : c ≠ a) :
    (npv_loop_step p acc a).cells Row.npv c = acc.cells Row.npv c := by
  unfold npv_loop_step
  split
  · rw [Table.cells_set_col_ne _ _ _ _ h]
  split
  · rw [Table.cells_set_col_ne _ _ _ _ h]
  split
  · rw [Table.cells_set_col_ne _ _ _ _ h]
  rfl

theorem npv_loop_step_inv (p : Params) (t0 : Table) (hclean : NpvClean t0) {acc : Table}
    (hinv : NpvInv p t0 acc) (a : Col) : NpvInv p t0 (npv_loop_step p acc a) := by
  obtain ⟨hrows, hcells, hdisj⟩ := hinv
  refine ⟨?_, ?_, ?_⟩
  · unfold npv_loop_step
    split
    · exact Or.inr (set_npv_rows t0 hclean hrows _ _)
    split
    · exact Or.inr (set_npv_rows t0 hclean hrows _ _)
    split
    · exact Or.inr (set_npv_rows t0 hclean hrows _ _)
    exact hrows
  · intro y c
    rw [npv_loop_step_cells_yr]
    exact hcells y c
  · intro c
    by_cases hca : c = a
    · subst hca
      exact Or.inl (npv_loop_step_written p t0 ⟨hrows, hcells, hdisj⟩ c)
    · rw [npv_loop_step_other p acc a c hca]
      exact hdisj c

theorem npv_fold_keep (p : Params) (t0 : Table) (hclean : NpvClean t0) (L : List Col)
    {acc : Table} (hinv : NpvInv p t0 acc) {c : Col}
    (hc : acc.cells Row.npv c = npv_row_spec p t0 c) :
    (L.foldl (npv_loop_step p) acc).cells Row.npv c = npv_row_spec p t0 c := by
  induction L generalizing acc with
  | nil => exact hc
  | cons a l ih =>
      rw [List.foldl_cons]
      apply ih (npv_loop_step_inv p t0 hclean hinv a)
      by_cases hca : c = a
      · subst hca
        exact npv_loop_step_written p t0 hinv c
      · rw [npv_loop_step_other p acc a c hca]
        exact hc

theorem npv_fold_mem (p : Params) (t0 : Table) (hclean : NpvClean t0) (L : List Col)
    {acc : Table} (hinv : NpvInv p t0 acc) {c : Col} (hc : c ∈ L) :
    (L.foldl (npv_loop_step p) acc).cells Row.npv c = npv_row_spec p t0 c := by
  induction L generalizing acc with
  | nil => exact absurd hc (List.not_mem_nil c)
  | cons a l ih =>
      rw [List.foldl_cons]
      by_cases hca : c = a
      · subst hca
        exact npv_fold_keep p t0 hclean l (npv_loop_step_inv p t0 hclean hinv c)
          (npv_loop_step_written p t0 hinv c)
      · refine ih (npv_loop_step_inv p t0 hclean hinv a) ?_
        rcases List.mem_cons.mp hc with h | h
        · exact absurd h hca
        · exact h

theorem npv_loop_step_colIndex (p : Params) (acc : Table) {a : Col} (ha : a ∈ acc.colIndex) :
    (npv_loop_step p acc a).colIndex = acc.colIndex := by
  unfold npv_loop_step
  split
  · exact Table.set_colIndex_of_mem _ _ ha
  split
  · exact Table.set_colIndex_of_mem _ _ ha
  split
  · exact Table.set_colIndex_of_mem _ _ ha
  rfl

theorem npv_fold_colIndex (p : Params) (L : List Col) (acc : Table)
    (hL : ∀ c ∈ L, c ∈ acc.colIndex) :
    (L.foldl (npv_loop_step p) acc).colIndex = acc.colIndex := by
  induction L generalizing acc with
  | nil => rfl
  | cons a l ih =>
      have ha := hL a (List.mem_cons_self a l)
      have hstep := npv_loop_step_colIndex p acc ha
      rw [List.foldl_cons, ih]
      · exact hstep
      · intro c hc
        rw [hstep]
        exact hL c (List.mem_cons_of_mem _ hc)

/-- Claim C6: in every successfully built pro forma, every column's NPV-row
entry is exactly the claim's trichotomy evaluated on the table as it stood
before the NPV loop: the undiscounted column sum for the five energy-total
columns, absent for the excluded rate/unit columns and the informational
Operating Year column, and the `calculate_npv` discounted value at the
equity discount rate with the construction-time shift for every other
column. -/
theorem C6_npv_row (sim : List SimRow) (p : Params) (T : Table)
    (h : calculate_pro_forma_raw sim p = Except.ok T) (col : Col)
    (hcol : col ∈ T.colIndex) :
    T.cells Row.npv col = npv_row_spec p (build_body sim p) col := by
  obtain ⟨hT, -, -, -, -, -⟩ := raw_ok_inv h
  subst hT
  have hclean := build_body_npv_clean sim p
  have hidx : (build_table sim p).colIndex = (build_body sim p).colIndex := by
    unfold build_table npv_loop
    exact npv_fold_colIndex p _ _ (fun c hc => hc)
  rw [hidx] at hcol
  unfold build_table npv_loop
  exact npv_fold_mem p _ hclean _
    ⟨Or.inl rfl, fun _ _ => rfl, fun c => Or.inr (hclean.2 c)⟩ hcol

/-! ### The column index always starts with the powerflow columns -/

/-- How one `set` extends the column index. -/
def insCol (cs : List Col) (c : Col) : List Col :=
  if c ∈ cs then cs else cs ++ [c]

theorem Table.set_colIndex (t : Table) (r : Row) (c : Col) (v : Option ℚ) :
    (t.set r c v).colIndex = insCol t.colIndex c := rfl

theorem fold_set_colIndex (cs : List Col) (y : ℤ) (g : Col → Option ℚ) (t : Table) :
    (cs.foldl (fun acc c => acc.set (Row.yr y) c (g c)) t).colIndex =
      cs.foldl insCol t.colIndex := by
  induction cs generalizing t with
  | nil => rfl
  | cons a l ih => rw [List.foldl_cons, List.foldl_cons, ih, Table.set_colIndex]

theorem colIndex_extend_trans {cs : List Col} {t2 t3 : Table}
    (h1 : ∃ s, t2.colIndex = cs ++ s)
    (h2 : ∃ s, t3.colIndex = t2.colIndex ++ s) :
    ∃ s, t3.colIndex = cs ++ s := by
  obtain ⟨s1, e1⟩ := h1
  obtain ⟨s2, e2⟩ := h2
  exact ⟨s1 ++ s2, by rw [e2, e1, List.append_assoc]⟩

theorem Table.set_colIndex_extend (t : Table) (r : Row) (c : Col) (v : Option ℚ) :
    ∃ s, (t.set r c v).colIndex = t.colIndex ++ s := by
  rw [Table.set_colIndex]
  unfold insCol
  by_cases h : c ∈ t.colIndex
  · exact ⟨[], by rw [if_pos h, List.append_nil]⟩
  · exact ⟨[c], by rw [if_neg h]⟩

theorem Table.setRows_colIndex_extend (t : Table) (rs : List Row) (c : Col)
    (f : Row → Option ℚ) : ∃ s, (t.setRows rs c f).colIndex = t.colIndex ++ s := by
  induction rs generalizing t with
  | nil => exact ⟨[], by rw [List.append_nil]; rfl⟩
  | cons a l ih =>
      refine colIndex_extend_trans (Table.set_colIndex_extend t a c (f a)) ?_
      exact ih (t.set a c (f a))

theorem fold_set_colIndex_extend (cs : List Col) (y : ℤ) (g : Col → Option ℚ) (t : Table) :
    ∃ s, (cs.foldl (fun acc c => acc.set (Row.yr y) c (g c)) t).colIndex = t.colIndex ++ s := by
  induction cs generalizing t with
  | nil => exact ⟨[], by rw [List.append_nil]; rfl⟩
  | cons a l ih =>
      refine colIndex_extend_trans (Table.set_colIndex_extend t (Row.yr y) a (g a)) ?_
      exact ih _

theorem sim_fold_colIndex_extend (sim : List SimRow) (ys : List ℤ) (t : Table) :
    ∃ s, ((ys.foldl (fun acc year =>
      match sim.find? (fun row => row.opYear == year) with
      | some year_data =>
          POWERFLOW_COLUMNS_TO_ASSIGN.foldl
            (fun acc2 column => acc2.set (Row.yr year) column (simValue year_data column))
            (acc.set (Row.yr year) ("Operating Year") (some (year : ℚ)))
      | none => acc) t)).colIndex = t.colIndex ++ s := by
  induction ys generalizing t with
  | nil => exact ⟨[], by rw [List.append_nil]; rfl⟩
  | cons a l ih =>
      rw [List.foldl_cons]
      refine colIndex_extend_trans ?_ (ih _)
      cases hfind : sim.find? (fun row => row.opYear == a) with
      | none =>
          simp only [hfind]
          exact ⟨[], by rw [List.append_nil]⟩
      | some year_data =>
          simp only [hfind]
          refine colIndex_extend_trans
            (Table.set_colIndex_extend t (Row.yr a) ("Operating Year") (some (a : ℚ))) ?_
          exact fold_set_colIndex_extend _ _ _ _

/-- The first six column labels, created by the powerflow copy loop. -/
def sim_columns : List Col :=
  ("Operating Year") :: POWERFLOW_COLUMNS_TO_ASSIGN

theorem sim_assign_colIndex_head (sim : List SimRow) (hsim : sim ≠ []) :
    ∃ s, (sim_assign sim init_table).colIndex = sim_columns ++ s := by
  cases sim with
  | nil => exact absurd rfl hsim
  | cons r0 rest =>
      unfold sim_assign
      have huniq : uniqueFirst ((r0 :: rest).map SimRow.opYear) =
          r0.opYear :: uniqueFirstAux [r0.opYear] (rest.map SimRow.opYear) := by
        rw [List.map_cons]
        rfl
      rw [huniq, List.foldl_cons]
      have hfind : (r0 :: rest).find? (fun row => row.opYear == r0.opYear) = some r0 :=
        List.find?_cons_of_pos _ (by simp)
      simp only [hfind]
      refine colIndex_extend_trans ?_ (sim_fold_colIndex_extend _ _ _)
      refine ⟨[], ?_⟩
      rw [List.append_nil, fold_set_colIndex, Table.set_colIndex]
      decide

theorem debt_tax_step_colIndex_extend (p : Params) (t : Table) (year : ℤ) :
    ∃ s, (debt_tax_step p t year).colIndex = t.colIndex ++ s := by
  simp only [debt_tax_step]
  by_cases hterm : year < (p.debt_term_years : ℤ)
  · rw [if_pos hterm]
    refine colIndex_extend_trans (colIndex_extend_trans (colIndex_extend_trans
      (colIndex_extend_trans (colIndex_extend_trans (colIndex_extend_trans
        (colIndex_extend_trans (Table.set_colIndex_extend _ _ _ _)
          (Table.set_colIndex_extend _ _ _ _)) (Table.set_colIndex_extend _ _ _ _))
        (Table.set_colIndex_extend _ _ _ _)) (Table.set_colIndex_extend _ _ _ _))
      (Table.set_colIndex_extend _ _ _ _)) (Table.set_colIndex_extend _ _ _ _))
      (Table.set_colIndex_extend _ _ _ _)
  · rw [if_neg hterm]
    refine colIndex_extend_trans (colIndex_extend_trans (colIndex_extend_trans
      (colIndex_extend_trans (colIndex_extend_trans (colIndex_extend_trans
        (Table.set_colIndex_extend _ _ _ _) (Table.set_colIndex_extend _ _ _ _))
        (Table.set_colIndex_extend _ _ _ _)) (Table.set_colIndex_extend _ _ _ _))
      (Table.set_colIndex_extend _ _ _ _)) (Table.set_colIndex_extend _ _ _ _))
      (Table.set_colIndex_extend _ _ _ _)

theorem debt_tax_loop_colIndex_extend (p : Params) (t : Table) :
    ∃ s, (debt_tax_loop p t).colIndex = t.colIndex ++ s := by
  unfold debt_tax_loop
  generalize loop_years = ys
  induction ys generalizing t with
  | nil => exact ⟨[], by rw [List.append_nil]; rfl⟩
  | cons a l ih =>
      rw [List.foldl_cons]
      exact colIndex_extend_trans (debt_tax_step_colIndex_extend p t a) (ih _)

theorem operating_stage_colIndex_extend (p : Params) (t : Table) :
    ∃ s, (operating_stage p t).colIndex = t.colIndex ++ s := by
  simp only [operating_stage]
  refine colIndex_extend_trans ?_ (Table.setRows_colIndex_extend _ _ _ _)
  refine colIndex_extend_trans ?_ (Table.setRows_colIndex_extend _ _ _ _)
  refine colIndex_extend_trans ?_ (Table.setRows_colIndex_extend _ _ _ _)
  refine colIndex_extend_trans ?_ (Table.setRows_colIndex_extend _ _ _ _)
  refine colIndex_extend_trans ?_ (Table.setRows_colIndex_extend _ _ _ _)
  refine colIndex_extend_trans ?_ (Table.setRows_colIndex_extend _ _ _ _)
  refine colIndex_extend_trans ?_ (Table.setRows_colIndex_extend _ _ _ _)
  refine colIndex_extend_trans ?_ (Table.setRows_colIndex_extend _ _ _ _)
  refine colIndex_extend_trans ?_ (Table.setRows_colIndex_extend _ _ _ _)
  refine colIndex_extend_trans ?_ (Table.setRows_colIndex_extend _ _ _ _)
  refine colIndex_extend_trans ?_ (Table.setRows_colIndex_extend _ _ _ _)
  refine colIndex_extend_trans ?_ (Table.setRows_colIndex_extend _ _ _ _)
  refine colIndex_extend_trans ?_ (Table.setRows_colIndex_extend _ _ _ _)
  refine colIndex_extend_trans ?_ (Table.setRows_colIndex_extend _ _ _ _)
  exact ⟨[], by rw [List.append_nil]⟩

theorem tax_and_equity_columns_colIndex_extend (p : Params) (t : Table) :
    ∃ s, (tax_and_equity_columns p t).colIndex = t.colIndex ++ s := by
  simp only [tax_and_equity_columns]
  refine colIndex_extend_trans ?_ (Table.setRows_colIndex_extend _ _ _ _)
  exact Table.setRows_colIndex_extend _ _ _ _

/-- With a nonempty simulation summary, the column index of the built body
starts with Operating Year and the five powerflow columns. -/
theorem build_body_colIndex_head (sim : List SimRow) (p : Params) (hsim : sim ≠ []) :
    ∃ s, (build_body sim p).colIndex = sim_columns ++ s := by
  unfold build_body
  obtain ⟨s0, hs0⟩ := sim_assign_colIndex_head sim hsim
  refine colIndex_extend_trans ⟨s0, hs0⟩ ?_
  refine colIndex_extend_trans ?_ (tax_and_equity_columns_colIndex_extend _ _)
  refine colIndex_extend_trans ?_ (debt_tax_loop_colIndex_extend _ _)
  refine colIndex_extend_trans ?_ (operating_stage_colIndex_extend _ _)
  refine colIndex_extend_trans ?_ (Table.setRows_colIndex_extend _ _ _ _)
  refine colIndex_extend_trans ?_ (Table.setRows_colIndex_extend _ _ _ _)
  refine colIndex_extend_trans ?_ (Table.setRows_colIndex_extend _ _ _ _)
  refine colIndex_extend_trans ?_ (Table.set_colIndex_extend _ _ _ _)
  refine colIndex_extend_trans ?_ (Table.set_colIndex_extend _ _ _ _)
  exact ⟨[], by rw [List.append_nil]⟩

/-- Witness for `C6_npv_row`: the baseline scenario at the informational
Operating Year column (whose NPV-row entry is absent). -/
theorem C6_npv_row_witness :
    (build_table baseline_sim baseline_params).cells Row.npv ("Operating Year") =
      npv_row_spec baseline_params (build_body baseline_sim baseline_params)
        ("Operating Year") :=
  C6_npv_row baseline_sim baseline_params (build_table baseline_sim baseline_params)
    (by with_unfolding_all rfl) ("Operating Year")
    (by
      have hidx : (build_table baseline_sim baseline_params).colIndex =
          (build_body baseline_sim baseline_params).colIndex := by
        unfold build_table npv_loop
        exact npv_fold_colIndex _ _ _ (fun c hc => hc)
      rw [hidx]
      obtain ⟨s, hs⟩ := build_body_colIndex_head baseline_sim baseline_params (by decide)
      rw [hs]
      exact List.mem_append.mpr (Or.inl (by decide)))

/-! ### Claim C2: the row index -/

theorem fold_set_rowIndex (cs : List Col) (y : ℤ) (g : Col → Option ℚ) (t : Table)
    (h : Row.yr y ∈ t.rowIndex) :
    (cs.foldl (fun acc c => acc.set (Row.yr y) c (g c)) t).rowIndex = t.rowIndex := by
  induction cs generalizing t with
  | nil => rfl
  | cons a l ih =>
      have hst : (t.set (Row.yr y) a (g a)).rowIndex = t.rowIndex :=
        Table.set_rowIndex_of_mem _ _ h
      rw [List.foldl_cons, ih _ (by rw [hst]; exact h), hst]

theorem mem_of_uniqueFirstAux {seen l : List ℤ} {a : ℤ} (h : a ∈ uniqueFirstAux seen l) :
    a ∈ l := by
  induction l generalizing seen with
  | nil => cases h
  | cons b m ih =>
      unfold uniqueFirstAux at h
      by_cases hb : b ∈ seen
      · rw [if_pos hb] at h
        exact List.mem_cons_of_mem _ (ih h)
      · rw [if_neg hb] at h
        rcases List.mem_cons.mp h with h1 | h1
        · rw [h1]
          exact List.mem_cons_self b m
        · exact List.mem_cons_of_mem _ (ih h1)

theorem sim_assign_rowIndex (sim : List SimRow) (t : Table)
    (h : ∀ y ∈ uniqueFirst (sim.map SimRow.opYear), Row.yr y ∈ t.rowIndex) :
    (sim_assign sim t).rowIndex = t.rowIndex := by
  unfold sim_assign
  generalize hys : uniqueFirst (sim.map SimRow.opYear) = ys at h
  clear hys
  induction ys generalizing t with
  | nil => rfl
  | cons a l ih =>
      rw [List.foldl_cons]
      have ha := h a (List.mem_cons_self a l)
      cases hfind : sim.find? (fun row => row.opYear == a) with
      | none =>
          simp only [hfind]
          exact ih _ (fun y hy => h y (List.mem_cons_of_mem _ hy))
      | some year_data =>
          simp only [hfind]
          have hstep : (POWERFLOW_COLUMNS_TO_ASSIGN.foldl
              (fun acc2 column => acc2.set (Row.yr a) column (simValue year_data column))
              (t.set (Row.yr a) ("Operating Year") (some (a : ℚ)))).rowIndex = t.rowIndex := by
            rw [fold_set_rowIndex _ _ _ _ (by rw [Table.set_rowIndex_of_mem _ _ ha]; exact ha),
              Table.set_rowIndex_of_mem _ _ ha]
          rw [ih _ (fun y hy => by rw [hstep]; exact h y (List.mem_cons_of_mem _ hy)), hstep]

theorem set_std_rowIndex {t : Table} {y : ℤ} (hy : -1 ≤ y ∧ y ≤ 20) (c : Col) (v : Option ℚ)
    (h : t.rowIndex = standard_dated_rows) :
    (t.set (Row.yr y) c v).rowIndex = standard_dated_rows := by
  rw [Table.set_rowIndex_of_mem c v (by rw [h]; exact mem_standard_dated_rows.mpr hy), h]

theorem setRows_std_rowIndex {t : Table} {rs : List Row}
    (hrs : ∀ r ∈ rs, r ∈ standard_dated_rows) (c : Col) (f : Row → Option ℚ)
    (h : t.rowIndex = standard_dated_rows) :
    (t.setRows rs c f).rowIndex = standard_dated_rows := by
  rw [Table.setRows_rowIndex_of_subset c f (fun r hr => by rw [h]; exact hrs r hr), h]

theorem debt_tax_step_rowIndex (p : Params) (hterm : p.debt_term_years ≤ 20) {t : Table}
    {year : ℤ} (hy : 1 ≤ year ∧ year ≤ 20)
    (h : t.rowIndex = standard_dated_rows) :
    (debt_tax_step p t year).rowIndex = standard_dated_rows := by
  simp only [debt_tax_step]
  by_cases hcond : year < (p.debt_term_years : ℤ)
  · rw [if_pos hcond]
    apply set_std_rowIndex (by omega) _ _
    apply set_std_rowIndex (by omega) _ _
    apply set_std_rowIndex (by omega) _ _
    apply set_std_rowIndex (by omega) _ _
    apply set_std_rowIndex (by omega) _ _
    apply set_std_rowIndex (by omega) _ _
    apply set_std_rowIndex (by omega) _ _
    exact set_std_rowIndex (by omega) _ _ h
  · rw [if_neg hcond]
    apply set_std_rowIndex (by omega) _ _
    apply set_std_rowIndex (by omega) _ _
    apply set_std_rowIndex (by omega) _ _
    apply set_std_rowIndex (by omega) _ _
    apply set_std_rowIndex (by omega) _ _
    apply set_std_rowIndex (by omega) _ _
    exact set_std_rowIndex (by omega) _ _ h

theorem debt_tax_loop_rowIndex (p : Params) (hterm : p.debt_term_years ≤ 20) {t : Table}
    (h : t.rowIndex = standard_dated_rows) :
    (debt_tax_loop p t).rowIndex = standard_dated_rows := by
  unfold debt_tax_loop
  have hgen : ∀ L : List ℤ, (∀ a ∈ L, 1 ≤ a ∧ a ≤ 20) → ∀ t' : Table,
      t'.rowIndex = standard_dated_rows →
      (L.foldl (debt_tax_step p) t').rowIndex = standard_dated_rows := by
    intro L
    induction L with
    | nil => exact fun _ t' h' => h'
    | cons a l ih =>
        intro hL t' h'
        rw [List.foldl_cons]
        exact ih (fun b hb => hL b (List.mem_cons_of_mem _ hb)) _
          (debt_tax_step_rowIndex p hterm (hL a (List.mem_cons_self a l)) h')
  exact hgen loop_years (fun a ha => mem_loop_years.mp ha) t h

theorem operating_stage_rowIndex (p : Params) (t : Table) :
    (operating_stage p t).rowIndex = t.rowIndex := by
  simp only [operating_stage]
  have sub : ∀ t' : Table, t'.rowIndex = t.rowIndex → ∀ (c : Col) (f : Row → Option ℚ),
      (Table.setRows t' t.operatingRows c f).rowIndex = t.rowIndex := by
    intro t' ht c f
    rw [Table.setRows_rowIndex_of_subset c f
      (fun r hr => by rw [ht]; exact Table.operatingRows_subset hr), ht]
  refine sub _ ?_ _ _
  refine sub _ ?_ _ _
  refine sub _ ?_ _ _
  refine sub _ ?_ _ _
  refine sub _ ?_ _ _
  refine sub _ ?_ _ _
  refine sub _ ?_ _ _
  refine sub _ ?_ _ _
  refine sub _ ?_ _ _
  refine sub _ ?_ _ _
  refine sub _ ?_ _ _
  refine sub _ ?_ _ _
  refine sub _ ?_ _ _
  refine sub _ ?_ _ _
  rfl

theorem tax_and_equity_columns_rowIndex (p : Params) (t : Table) :
    (tax_and_equity_columns p t).rowIndex = t.rowIndex := by
  simp only [tax_and_equity_columns]
  rw [Table.setRows_rowIndex_of_subset _ _ (fun r hr => hr),
    Table.setRows_rowIndex_of_subset _ _ (fun r hr => hr)]

theorem build_body_rowIndex (sim : List SimRow) (p : Params)
    (hyrs : ∀ r ∈ sim, 1 ≤ r.opYear ∧ r.opYear ≤ 20)
    (hn : p.construction_time_years ≤ 2) (hterm : p.debt_term_years ≤ 20) :
    (build_body sim p).rowIndex = standard_dated_rows := by
  have hcy : ∀ r ∈ (construction_years p.construction_time_years).map Row.yr,
      r ∈ standard_dated_rows := by
    intro r hr
    obtain ⟨ya, hya, hye⟩ := List.mem_map.mp hr
    obtain ⟨hb1, hb2⟩ := mem_construction_years.mp hya
    rw [← hye]
    exact mem_standard_dated_rows.mpr (by omega)
  unfold build_body
  rw [tax_and_equity_columns_rowIndex]
  apply debt_tax_loop_rowIndex p hterm
  rw [operating_stage_rowIndex]
  apply setRows_std_rowIndex hcy _ _
  apply setRows_std_rowIndex hcy _ _
  apply setRows_std_rowIndex hcy _ _
  apply set_std_rowIndex (by omega) _ _
  apply set_std_rowIndex (by omega) _ _
  rw [sim_assign_rowIndex sim init_table ?_]
  · rfl
  · intro y hy
    have hmy : y ∈ sim.map SimRow.opYear := mem_of_uniqueFirstAux hy
    obtain ⟨r, hr, hry⟩ := List.mem_map.mp hmy
    obtain ⟨hb1, hb2⟩ := hyrs r hr
    show Row.yr y ∈ init_table.rowIndex
    rw [show init_table.rowIndex = standard_dated_rows from rfl]
    exact mem_standard_dated_rows.mpr (by omega)

theorem npv_fold_rows_stable (p : Params) (L : List Col) (acc : Table)
    (h : Row.npv ∈ acc.rowIndex) :
    (L.foldl (npv_loop_step p) acc).rowIndex = acc.rowIndex := by
  induction L generalizing acc with
  | nil => rfl
  | cons a l ih =>
      have hstep : (npv_loop_step p acc a).rowIndex = acc.rowIndex := by
        unfold npv_loop_step
        split
        · exact Table.set_rowIndex_of_mem _ _ h
        split
        · exact Table.set_rowIndex_of_mem _ _ h
        split
        · exact Table.set_rowIndex_of_mem _ _ h
        rfl
      rw [List.foldl_cons, ih _ (by rw [hstep]; exact h), hstep]

/-- The rows of a fully built table: regardless of the construction time,
the dated rows are the hard-coded `-1..20`, and the NPV loop appends exactly
one NPV row (the first total-type column, `Solar Output - Net (MWh)`,
creates it). -/
theorem build_table_rowIndex (sim : List SimRow) (p : Params) (hsim : sim ≠ [])
    (hyrs : ∀ r ∈ sim, 1 ≤ r.opYear ∧ r.opYear ≤ 20)
    (hn : p.construction_time_years ≤ 2) (hterm : p.debt_term_years ≤ 20) :
    (build_table sim p).rowIndex = standard_rows := by
  have hbody := build_body_rowIndex sim p hyrs hn hterm
  obtain ⟨s, hs⟩ := build_body_colIndex_head sim p hsim
  unfold build_table npv_loop
  rw [hs]
  rw [show sim_columns ++ s = ("Operating Year") :: ("Solar Output - Net (MWh)") ::
    (["BESS Net Output (MWh)", "Generator Output (MWh)", "Generator Fuel Input (MMBtu)",
      "Load Served (MWh)"] ++ s) from rfl]
  rw [List.foldl_cons, List.foldl_cons]
  have hOY : npv_loop_step p (build_body sim p) ("Operating Year") = build_body sim p := by
    unfold npv_loop_step
    rw [if_neg (by decide), if_neg (by decide), if_neg (by decide)]
  rw [hOY]
  have hSolar : (npv_loop_step p (build_body sim p) ("Solar Output - Net (MWh)")).rowIndex =
      standard_dated_rows ++ [Row.npv] := by
    unfold npv_loop_step
    rw [if_pos (by decide)]
    rw [Table.set_rowIndex_of_not_mem _ _
      (by rw [hbody]; exact npv_not_mem_standard_dated_rows), hbody]
  rw [npv_fold_rows_stable p _ _
    (by rw [hSolar]; exact List.mem_append.mpr (Or.inr (by decide))), hSolar]
  rfl

/-- The baseline scenario with a single construction year. -/
def one_year_params : Params :=
  { baseline_params with construction_time_years := 1 }

/-- With simulation Operating Years all within 1..20, the powerflow copy
enlarges nothing, so the row index after it is still the hard-coded
-1..20. -/
theorem sim_assign_rowIndex_std (sim : List SimRow)
    (hyrs : ∀ r ∈ sim, 1 ≤ r.opYear ∧ r.opYear ≤ 20) :
    (sim_assign sim init_table).rowIndex = standard_dated_rows := by
  have hmem : ∀ y ∈ uniqueFirst (sim.map SimRow.opYear), Row.yr y ∈ init_table.rowIndex := by
    intro y hy
    have hmy : y ∈ sim.map SimRow.opYear := mem_of_uniqueFirstAux hy
    obtain ⟨r, hr, hry⟩ := List.mem_map.mp hmy
    obtain ⟨hb1, hb2⟩ := hyrs r hr
    rw [show init_table.rowIndex = standard_dated_rows from rfl]
    exact mem_standard_dated_rows.mpr (by omega)
  rw [sim_assign_rowIndex sim init_table hmem]
  rfl

/-- Claim C2 counterexample: with construction_time_years = 1 the claim
says the rows are exactly 0..20 plus NPV, but the built table still has a
row for year -1 — the year index is hard-coded to -1..20. -/
theorem C2_counterexample :
    calculate_pro_forma_raw baseline_sim one_year_params =
        Except.ok (build_table baseline_sim one_year_params) ∧
      Row.yr (-1) ∈ (build_table baseline_sim one_year_params).rowIndex := by
  constructor
  · with_unfolding_all rfl
  · rw [build_table_rowIndex baseline_sim one_year_params (by decide) (by decide)
      (by decide) (by decide)]
    decide

/-- Claim C2 (amended): the year index is hard-coded to -1..20, independent
of construction_time_years: every successfully returned table has one row
per Year for every integer from -1 through 20, plus exactly one terminal
NPV row, and no other rows (given simulation Operating Years within 1..20
and debt_term_years ≤ 20, without which pandas label enlargement adds
extra rows). This matches -(construction_time_years-1)..20 only for two
construction years; for one construction year the year -1 row is extra. -/
theorem C2_rows_amended (sim : List SimRow) (p : Params) (T : Table)
    (h : calculate_pro_forma_raw sim p = Except.ok T)
    (hyrs : ∀ r ∈ sim, 1 ≤ r.opYear ∧ r.opYear ≤ 20)
    (hterm : p.debt_term_years ≤ 20) :
    T.rowIndex = standard_rows := by
  obtain ⟨hT, -, -, hn0, hcy, hsim⟩ := raw_ok_inv h
  subst hT
  have hn2 : p.construction_time_years ≤ 2 := by
    by_contra hgt
    push_neg at hgt
    have hmem : (1 - (p.construction_time_years : ℤ)) ∈
        construction_years p.construction_time_years :=
      mem_construction_years.mpr ⟨le_refl _, by omega⟩
    have hin := hcy _ hmem
    rw [sim_assign_rowIndex_std sim hyrs] at hin
    have hb := mem_standard_dated_rows.mp hin
    omega
  exact build_table_rowIndex sim p hsim hyrs hn2 hterm

/-- Witness for `C2_rows_amended`: the baseline two-year scenario returns
exactly the rows -1..20 plus one NPV row. -/
theorem C2_rows_amended_witness :
    (build_table baseline_sim baseline_params).rowIndex = standard_rows :=
  C2_rows_amended baseline_sim baseline_params (build_table baseline_sim baseline_params)
    (by with_unfolding_all rfl) (by decide) (by decide)

/-! ### Claim C10: duplicate Operating Year rows -/

/-- Keep only the first simulation row of each Operating Year (auxiliary,
with the years already seen as accumulator). -/
def firstPerYearAux : List ℤ → List SimRow → List SimRow
  | _, [] => []
  | seen, row :: rest =>
      if row.opYear ∈ seen then firstPerYearAux seen rest
      else row :: firstPerYearAux (row.opYear :: seen) rest

/-- Keep only the first simulation row of each Operating Year. -/
def firstPerYear (l : List SimRow) : List SimRow := firstPerYearAux [] l

theorem firstPerYearAux_cons (seen : List ℤ) (row : SimRow) (rest : List SimRow) :
    firstPerYearAux seen (row :: rest) =
      if row.opYear ∈ seen then firstPerYearAux seen rest
      else row :: firstPerYearAux (row.opYear :: seen) rest := rfl

theorem uniqueFirstAux_cons (seen : List ℤ) (y : ℤ) (ys : List ℤ) :
    uniqueFirstAux seen (y :: ys) =
      if y ∈ seen then uniqueFirstAux seen ys else y :: uniqueFirstAux (y :: seen) ys := rfl

theorem uniqueFirstAux_firstPerYearAux (l : List SimRow) :
    ∀ seen : List ℤ, uniqueFirstAux seen ((firstPerYearAux seen l).map SimRow.opYear) =
      uniqueFirstAux seen (l.map SimRow.opYear) := by
  induction l with
  | nil => intro seen; rfl
  | cons row rest ih =>
      intro seen
      by_cases hmem : row.opYear ∈ seen
      · rw [firstPerYearAux_cons, if_pos hmem, ih seen, List.map_cons,
          uniqueFirstAux_cons, if_pos hmem]
      · rw [firstPerYearAux_cons, if_neg hmem, List.map_cons, List.map_cons,
          uniqueFirstAux_cons, if_neg hmem, uniqueFirstAux_cons, if_neg hmem,
          ih (row.opYear :: seen)]

theorem find?_firstPerYearAux (l : List SimRow) :
    ∀ (seen : List ℤ) (y : ℤ), y ∉ seen →
      (firstPerYearAux seen l).find? (fun row => row.opYear == y) =
        l.find? (fun row => row.opYear == y) := by
  induction l with
  | nil => intro seen y _; rfl
  | cons row rest ih =>
      intro seen y hy
      by_cases hmem : row.opYear ∈ seen
      · rw [firstPerYearAux_cons, if_pos hmem, ih seen y hy]
        have hfalse : (row.opYear == y) = false := by
          simp only [beq_eq_false_iff_ne, ne_eq]
          intro hc
          exact hy (hc ▸ hmem)
        rw [List.find?_cons]
        simp only [hfalse]
      · rw [firstPerYearAux_cons, if_neg hmem]
        by_cases heq : (row.opYear == y) = true
        · rw [List.find?_cons, List.find?_cons]
          simp only [heq]
        · have hfalse : (row.opYear == y) = false := Bool.eq_false_iff.mpr heq
          rw [List.find?_cons, List.find?_cons]
          simp only [hfalse]
          apply ih
          intro hc
          rcases List.mem_cons.mp hc with h1 | h1
          · exact heq (by rw [h1]; exact beq_self_eq_true row.opYear)
          · exact hy h1

theorem find?_firstPerYear (l : List SimRow) (y : ℤ) :
    (firstPerYear l).find? (fun row => row.opYear == y) =
      l.find? (fun row => row.opYear == y) :=
  find?_firstPerYearAux l [] y (List.not_mem_nil y)

theorem uniqueFirst_firstPerYear (l : List SimRow) :
    uniqueFirst ((firstPerYear l).map SimRow.opYear) = uniqueFirst (l.map SimRow.opYear) :=
  uniqueFirstAux_firstPerYearAux l []

theorem firstPerYear_isEmpty (l : List SimRow) : (firstPerYear l).isEmpty = l.isEmpty := by
  cases l with
  | nil => rfl
  | cons row rest =>
      show (firstPerYearAux [] (row :: rest)).isEmpty = _
      rw [firstPerYearAux_cons, if_neg (List.not_mem_nil row.opYear)]
      rfl

theorem sim_assign_firstPerYear (sim : List SimRow) (t : Table) :
    sim_assign (firstPerYear sim) t = sim_assign sim t := by
  unfold sim_assign
  have hfun : (fun (acc : Table) (year : ℤ) =>
      match (firstPerYear sim).find? (fun row => row.opYear == year) with
      | some year_data =>
          POWERFLOW_COLUMNS_TO_ASSIGN.foldl
            (fun (acc2 : Table) (column : Col) =>
              acc2.set (Row.yr year) column (simValue year_data column))
            (acc.set (Row.yr year) ("Operating Year") (some (year : ℚ)))
      | none => acc) =
      (fun (acc : Table) (year : ℤ) =>
      match sim.find? (fun row => row.opYear == year) with
      | some year_data =>
          POWERFLOW_COLUMNS_TO_ASSIGN.foldl
            (fun (acc2 : Table) (column : Col) =>
              acc2.set (Row.yr year) column (simValue year_data column))
            (acc.set (Row.yr year) ("Operating Year") (some (year : ℚ)))
      | none => acc) := by
    funext acc year
    rw [find?_firstPerYear sim year]
  rw [uniqueFirst_firstPerYear, hfun]

/-- A simulation summary with two rows for the same Operating Year. -/
def dup_sim : List SimRow :=
  [ { opYear := 1, solarNet := 111, bessNet := 11, genOut := 21, fuelIn := 31, loadServed := 41 }
  , { opYear := 1, solarNet := 999, bessNet := 99, genOut := 92, fuelIn := 93, loadServed := 94 } ]

/-- Claim C10: duplicate Operating Year rows in the simulation data are
silently ignored — the whole result (including whether an error is raised)
equals the result on the data with only the first row of each year kept;
and concretely the energy cells come from the first duplicate row. -/
theorem C10_duplicate_years :
    (∀ (sim : List SimRow) (p : Params),
        calculate_pro_forma_raw sim p = calculate_pro_forma_raw (firstPerYear sim) p) ∧
      (sim_assign dup_sim init_table).cells (Row.yr 1) ("Solar Output - Net (MWh)") =
        some 111 := by
  constructor
  · intro sim p
    have hbuild : build_table (firstPerYear sim) p = build_table sim p := by
      unfold build_table build_body
      rw [sim_assign_firstPerYear]
    unfold calculate_pro_forma_raw
    rw [hbuild, sim_assign_firstPerYear, firstPerYear_isEmpty]
  · with_unfolding_all decide

end CostCalculator
